import Mathlib

/-!
# Verification of the ScaleX dashboard chart session subsystem

Shallow embedding of the chart data/lifecycle layer of the ScaleX marketing
dashboard (files `dashboard_chart_api.js`, `dashboard_charts.js`,
`dashboard_layout.js`), together with proofs and refutations of the
behavioural claims made by the specification.

Modelling conventions:

* JavaScript numbers are modelled as exact rationals (`Rat`); none of the
  verified properties depends on floating-point rounding.
* JavaScript object references are modelled by an explicit heap: `datas` is
  the heap of `chart.data` objects and `insts` the heap of `Chart` instances,
  each addressed by a natural-number reference.  This is what makes reference
  sharing (e.g. the modal chart receiving `data: baseConfig.data`) observable.
* `sessionStorage` entries that the subsystem reads are modelled as typed
  fields (`activePage`, parsed `dateRange` payload) rather than JSON strings;
  serialisation is invertible and none of the claims concerns it.
* DOM text/class mutations performed by the DOM-updating handlers are
  recorded structurally in an association list `dom` keyed by element id
  (one composite record per element or card), with the numeric values kept
  as rationals instead of locale-formatted strings.  Element presence is
  modelled by the list `domPresent`.  Visual formatting is outside the
  specification's scope.
* `console.log` / `console.warn` / `console.error` output is not modelled.
* `Chart.destroy()` may throw; call sites wrap it in `try/catch`.  The
  possibility of a throwing destroy is modelled by an oracle
  `destroyThrows : Nat → Bool` passed to the operations that destroy
  handles.  A destroy that throws leaves the instance's `destroyed` flag
  unset (its teardown did not complete); a successful destroy sets it.
* JavaScript exceptions that the subsystem can actually raise (a handler
  dereferencing a missing field or a missing dataset slot) are modelled by
  an `Option JsErr` result threaded through the dispatcher.
-/

set_option maxHeartbeats 1000000

namespace ScalexDash

/-- A JavaScript error value (only `TypeError`s arise in this subsystem). -/
inductive JsErr where
  | typeError (msg : String)
deriving DecidableEq, Repr, Inhabited

/-- A cell of the channel-snapshot table: JSON strings or numbers. -/
inductive CellVal where
  | s (v : String)
  | n (v : Rat)
deriving DecidableEq, Repr, Inhabited

/-- A `chart.data.labels` entry: the source stores strings for the detail
charts and numbers (`i + 1`) for the KPI sparklines. -/
inductive LabelVal where
  | str (v : String)
  | num (v : Rat)
deriving DecidableEq, Repr, Inhabited

/-- One point of the campaign-ROI bubble chart, as built by
`updateCampaignRoiBubbleFromAPI`.  The bubble radius
`Math.max(8, Math.sqrt(Math.max(revenueLakh, 0)) * 3)` is kept as its input
`revenueLakh` (field `rIn`): the square root is irrational and no claim
depends on the radius value, only on its determinism. -/
structure BubblePoint where
  x : Rat
  y : Rat
  rIn : Rat
  metaName : String
  metaChannel : String
  metaRoi : Rat
  metaSpendLakh : Rat
  metaRevenueLakh : Rat
  metaIncrRoas : Rat
  metaCurrency : String
deriving DecidableEq, Repr, Inhabited

/-- The `data` array of one dataset: numeric series (with explicit nulls)
for ordinary charts, bubble points for the bubble chart. -/
inductive SeriesData where
  | nums (vals : List (Option Rat))
  | bubbles (pts : List BubblePoint)
deriving DecidableEq, Repr, Inhabited

/-- A dataset colour: unset, a single colour string, or one colour per bar
(as assigned by `updateChannelLeadQualityFromAPI`). -/
inductive ColorSpec where
  | unset
  | single (c : String)
  | perBar (cs : List String)
deriving DecidableEq, Repr, Inhabited

/-- One element of `chart.data.datasets`. -/
structure DataSeries where
  label : Option String
  data : SeriesData
  backgroundColor : ColorSpec
  borderColor : ColorSpec
deriving DecidableEq, Repr, Inhabited

/-- A `chart.data` object (the part of the Chart.js config the subsystem
reads and writes). -/
structure ChartData where
  labels : List LabelVal
  datasets : List DataSeries
deriving DecidableEq, Repr, Inhabited

/-- A live `Chart` instance.  `dataRef` is the heap reference of its
`chart.data` object; `destroyed` records a completed `destroy()`.  The
remaining fields are the ad-hoc expando properties the update handlers
attach (`__tooltipRevenue`, `__efficiencyIndex`, `__currency`). -/
structure ChartInst where
  canvas : Nat
  dataRef : Nat
  destroyed : Bool
  tooltipRevenueNew : Option (List (Option Rat))
  tooltipRevenueRepeat : Option (List (Option Rat))
  efficiencyIndex : Option (List (Option Rat))
  currencyTag : Option String
deriving DecidableEq, Repr, Inhabited

/-- The `point` object of a raw bubble-chart dataset. -/
structure RawPoint where
  roiPercent : Option Rat
  spend : Option Rat
  revenue : Option Rat
  incrementalRoasPercent : Option Rat
deriving DecidableEq, Repr, Inhabited

/-- One element of a raw API `datasets` array.  Every field is optional:
the server may omit any of them and the handlers guard (or fail to guard)
accordingly. -/
structure RawDataset where
  label : Option String
  data : Option (List (Option Rat))
  point : Option RawPoint
deriving DecidableEq, Repr, Inhabited

/-- The `ctr` / `cpc` / `engagement` sub-objects of the creative-tiles
payload. -/
structure TileMetric where
  direction : Option String
  currentPercent : Option Rat
  deltaPoints : Option Rat
  currentValue : Option Rat
  deltaPercent : Option Rat
deriving DecidableEq, Repr, Inhabited

/-- The `tooltipRevenue` sub-object of the new-vs-repeat payload.  The JS
field named `repeat` is rendered `rep` here. -/
structure TooltipRevenue where
  tnew : Option (List (Option Rat))
  rep : Option (List (Option Rat))
deriving DecidableEq, Repr, Inhabited

/-- The raw `response.data` object handed to an update handler.  All fields
are optional; a JS object simply carries whichever fields the server sent.
Fields used by distinct handlers are pooled in one structure, mirroring the
single untyped `data` object of the source. -/
structure ApiData where
  labels : Option (List String)
  datasets : Option (List RawDataset)
  currentValue : Option Rat
  previousValue : Option Rat
  deltaPercent : Option Rat
  sparkline : Option (List Rat)
  severity : Option String
  icon : Option String
  mainPrefix : Option String
  mainHighlight : Option String
  mainSuffix : Option String
  subtext : Option String
  ltv : Option Rat
  cac : Option Rat
  ratio : Option Rat
  status : Option String
  tooltipRevenue : Option TooltipRevenue
  currency : Option String
  index : Option (List (Option Rat))
  ctr : Option TileMetric
  cpc : Option TileMetric
  engagement : Option TileMetric
  columns : Option (List String)
  rows : Option (List (List (Option CellVal)))
deriving DecidableEq, Repr, Inhabited

/-- The empty JS object `{}` (as produced by `response.data || {}`). -/
def ApiData.empty : ApiData :=
  { labels := none, datasets := none, currentValue := none, previousValue := none
    deltaPercent := none, sparkline := none, severity := none, icon := none
    mainPrefix := none, mainHighlight := none, mainSuffix := none, subtext := none
    ltv := none, cac := none, ratio := none, status := none, tooltipRevenue := none
    currency := none, index := none, ctr := none, cpc := none, engagement := none
    columns := none, rows := none }

/-- A parsed API response body `{ success, data, error }`.  `success` is
optional because the code tests `response.success === false` strictly, so
an absent flag behaves differently from `false`.  The `error` field is
write-only in the subsystem (it is only logged); its payload is collapsed
to a string. -/
structure Response where
  success : Option Bool
  data : Option ApiData
  error : Option String
deriving DecidableEq, Repr, Inhabited

/-- The value stored in `window.scalexChannelSnapshotLatest`. -/
structure SnapshotLatest where
  columns : Option (List String)
  rows : List (List (Option CellVal))
  currency : String
deriving DecidableEq, Repr, Inhabited

/-- A structural record of what a DOM-updating handler wrote to one element
(or one card).  Numeric values are kept as rationals; the `fmt` tags name
the formatting function the source would apply (`formatNumber`,
`formatOneDecimal`, ...).  A `none` in a numeric slot records JavaScript's
`NaN` from `Number(undefined)`. -/
inductive DomVal where
  | str (s : String)
  | kpiVal (pre fmt : String) (v : Rat) (suf : String)
  | kpiPrev (pre fmt : String) (v : Rat) (suf : String)
  | change (arrow sign cls : String) (pct : Rat)
  | alert (label pre hi suf sub hiClass symClass cardClass iconChar : String)
  | tile (arrow cls kind : String) (cur delta : Option Rat)
  | ltvRatio (ratio : Rat)
  | ltvSub (ltv cac : Rat)
  | ltvBadge (cls text : String)
  | tableRows (rows : List (List (Option CellVal)))
deriving DecidableEq, Repr, Inhabited

/-- The date-range pair written by `storeDateRange` (already
`moment(...).format("YYYY-MM-DD")`-formatted; the formatting itself is the
identity on the date strings we model). -/
structure DateRangePair where
  startDate : String
  endDate : String
deriving DecidableEq, Repr, Inhabited

/-- The payload `storeDateRange` builds and persists under the
sessionStorage key `"dateRange"`. -/
structure DatePayload where
  dateRange : DateRangePair
  comparison : Bool
  timestamp : String
deriving DecidableEq, Repr, Inhabited

/-- Attributes of a canvas element that `openChartModalFromCanvas` reads:
`dataset.chartTitle`, the (always-vacuous) `closest('.detail-card-title')`
text, and the enclosing detail card's subtitle text (already trimmed). -/
structure CanvasInfo where
  chartTitle : Option String
  closestTitle : Option String
  cardSubtitle : Option String
deriving DecidableEq, Repr, Inhabited

/-- The complete mutable state of the chart session subsystem: module
globals of the three JS files, the two object heaps, the session storage
entries the subsystem touches, and the structural DOM record. -/
structure DashState where
  /-- `CURRENT_PAGE` module variable of dashboard_chart_api.js. -/
  currentPage : String
  /-- sessionStorage `"activePage"`. -/
  sessionActivePage : Option String
  /-- sessionStorage `"dateRange"` (parsed). -/
  sessionDateRange : Option DatePayload
  /-- Heap of `chart.data` objects. -/
  datas : List ChartData
  /-- Heap of `Chart` instances. -/
  insts : List ChartInst
  /-- The `window.scalexXxxChart` globals: JS global name ↦ instance ref. -/
  windowCharts : List (String × Nat)
  /-- `SCALEX_KPI_CHARTS`: cache key ↦ instance ref (absent = null). -/
  kpiCharts : List (String × Nat)
  /-- `scalexDetailCharts` array (instance refs). -/
  detailCharts : List Nat
  /-- `scalexChartRegistry` Map: canvas id ↦ instance ref. -/
  registry : List (Nat × Nat)
  /-- `scalexModalChart` (instance ref or null). -/
  modalChart : Option Nat
  /-- `scalexModalSourceCanvas` (canvas id or null). -/
  modalSourceCanvas : Option Nat
  /-- `scalexModalTitle`. -/
  modalTitle : String
  /-- `scalexModalSubtitle`. -/
  modalSubtitle : String
  /-- Whether the `#chart-modal` element lacks the `hidden` class. -/
  modalVisible : Bool
  /-- Width set on the `#chart-modal-canvas` element. -/
  modalCanvasW : Nat
  /-- Height set on the `#chart-modal-canvas` element. -/
  modalCanvasH : Nat
  /-- The canvas id of the `#chart-modal-canvas` element. -/
  modalCanvasRef : Nat
  /-- `window.scalexChannelSnapshotLatest`. -/
  snapshotLatest : Option SnapshotLatest
  /-- Whether the `#loader` element lacks the `hidden` class. -/
  loaderVisible : Bool
  /-- Structural record of DOM writes, keyed by element/card id. -/
  dom : List (String × DomVal)
  /-- Element ids present in the document. -/
  domPresent : List String
  /-- Canvas attributes readable by the modal opener. -/
  canvasAttrs : List (Nat × CanvasInfo)
  /-- Number of `window.refreshPage` invocations triggered by the filter
  store (`safeCall("refreshPage")` in dashboard_layout.js). -/
  refreshCalls : Nat
deriving DecidableEq, Repr, Inhabited

/-- Association-list lookup (models property access on a JS object / Map). -/
def assocFind {α : Type} (l : List (String × α)) (k : String) : Option α :=
  match l with
  | [] => none
  | p :: rest => if p.1 = k then some p.2 else assocFind rest k

/-- Association-list lookup with `Nat` keys (the canvas-keyed registry). -/
def assocFindN {α : Type} (l : List (Nat × α)) (k : Nat) : Option α :=
  match l with
  | [] => none
  | p :: rest => if p.1 = k then some p.2 else assocFindN rest k

/-- Association-list overwrite (models property assignment / `Map.set`). -/
def assocSet {α : Type} (l : List (String × α)) (k : String) (v : α) :
    List (String × α) :=
  (k, v) :: l.filter (fun p => p.1 ≠ k)

/-- Association-list removal (models assigning `null`). -/
def assocDrop {α : Type} (l : List (String × α)) (k : String) :
    List (String × α) :=
  l.filter (fun p => p.1 ≠ k)

/-- Whether an element id is present in the document. -/
def domElem (s : DashState) (id : String) : Bool :=
  s.domPresent.contains id

/-- Record a DOM write. -/
def domWrite (id : String) (v : DomVal) (s : DashState) : DashState :=
  { s with dom := assocSet s.dom id v }

/-- `string.includes(sub)` for the non-empty needles the source uses. -/
def strIncludes (hay sub : String) : Bool :=
  (hay.splitOn sub).length ≠ 1

/-- The `chart.data` object of instance `r` (heap read). -/
def chartDataAt (s : DashState) (r : Nat) : ChartData :=
  s.datas.getD (s.insts.getD r default).dataRef default

/-- Overwrite the `chart.data` object of instance `r` in place (heap
write; the instance's `dataRef` is unchanged, so every alias observes the
update). -/
def setChartDataAt (r : Nat) (c : ChartData) (s : DashState) : DashState :=
  { s with datas := s.datas.set (s.insts.getD r default).dataRef c }

/-- Apply a pure transformation to the `chart.data` object of instance
`r`. -/
def modChartDataAt (r : Nat) (f : ChartData → ChartData) (s : DashState) :
    DashState :=
  setChartDataAt r (f (chartDataAt s r)) s

/-- Apply a transformation to the instance record `r` itself (expando
property assignment). -/
def modInstAt (r : Nat) (f : ChartInst → ChartInst) (s : DashState) :
    DashState :=
  { s with insts := s.insts.set r (f (s.insts.getD r default)) }

/-- The `const chart = window.<name>; if (!chart) return;` idiom: do
nothing when the global is null, otherwise run the body with the instance
reference. -/
def withWindowChart (name : String) (f : Nat → DashState → DashState)
    (s : DashState) : DashState :=
  match assocFind s.windowCharts name with
  | none => s
  | some r => f r s

/-- In-place update of the named chart's `chart.data` object. -/
def modChartData (name : String) (f : ChartData → ChartData) (s : DashState) :
    DashState :=
  withWindowChart name (fun r s => modChartDataAt r f s) s

/-- The `chart.data` object currently reachable from a `window.<name>`
global, if the global is set. -/
def chartDataOfName (s : DashState) (name : String) : Option ChartData :=
  (assocFind s.windowCharts name).map (chartDataAt s)

/-- Mark instance `r` destroyed (a completed `Chart.destroy()`). -/
def destroyInst (r : Nat) (s : DashState) : DashState :=
  modInstAt r (fun i => { i with destroyed := true }) s

/-- `try { inst.destroy(); } catch (e) { ... }`: when the oracle says the
destroy throws, the catch swallows the error and the instance's teardown is
left incomplete; otherwise the instance is marked destroyed. -/
def tryDestroy (destroyThrows : Nat → Bool) (r : Nat) (s : DashState) :
    DashState :=
  if destroyThrows r then s else destroyInst r s

/-- Allocate a fresh `Chart` instance with a fresh `chart.data` object
(ordinary `new Chart(ctx, {..., data: {...}})`).  Returns the new instance
reference. -/
def allocChart (canvas : Nat) (cd : ChartData) (s : DashState) :
    DashState × Nat :=
  let dref := s.datas.length
  let iref := s.insts.length
  ({ s with
      datas := s.datas ++ [cd]
      insts := s.insts ++ [{ canvas := canvas, dataRef := dref, destroyed := false
                             tooltipRevenueNew := none, tooltipRevenueRepeat := none
                             efficiencyIndex := none, currencyTag := none }] },
   iref)

/-- Allocate a fresh `Chart` instance whose `chart.data` is an existing
heap object (the modal's `new Chart(ctx, { data: baseConfig.data, ... })`,
which passes the source chart's data object by reference). -/
def allocChartAliasing (canvas : Nat) (dref : Nat) (s : DashState) :
    DashState × Nat :=
  let iref := s.insts.length
  ({ s with
      insts := s.insts ++ [{ canvas := canvas, dataRef := dref, destroyed := false
                             tooltipRevenueNew := none, tooltipRevenueRepeat := none
                             efficiencyIndex := none, currencyTag := none }] },
   iref)

/-! ## dashboard_chart_api.js §6.1: page-to-chart mapping -/

/-- `getChartsForPage` (dashboard_chart_api.js, lines 344-390): the fixed
mapping from page key to the ordered list of chart identifiers it needs. -/
def getChartsForPage (page : String) : List String :=
  if page = "performance-overview" then
    [ "kpi_revenue", "kpi_ad_spend", "kpi_roas", "kpi_roi",
      "alert_performance_gain", "alert_channel_mix", "alert_budget_reallocation",
      "perf_funnel_by_channel", "perf_cac_blended_vs_paid",
      "perf_cac_trend_by_channel", "perf_paid_roi_by_stage",
      "perf_pipeline_value", "perf_ltv_cac_ratio", "perf_ltv_by_cohort",
      "perf_attribution_accuracy", "perf_top_channels_roas",
      "perf_new_vs_repeat_mix" ]
  else if page = "channel-campaign-analytics" then
    [ "channel_cpl_cac_roas", "campaign_roi_bubble", "channel_touchpoint_split",
      "audience_roas", "channel_lead_quality", "channel_spend_efficiency",
      "creative_perf_tiles", "channel_snapshot_table" ]
  else
    []

/-! ## dashboard_layout.js: date-range storage (the filter store) -/

/-- `storeDateRange` (dashboard_layout.js, lines 36-49): builds the payload
from the already-formatted dates, persists it under sessionStorage key
`"dateRange"`, and triggers `safeCall("refreshPage")` (recorded as a
refresh trigger; `refreshPage`'s own semantics are modelled separately).
Returns the new state together with the payload the function returns.  No
validation of the range is performed. -/
def storeDateRange (startDate endDate : String) (now : String)
    (s : DashState) : DashState × DatePayload :=
  let payload : DatePayload :=
    { dateRange := { startDate := startDate, endDate := endDate }
      comparison := false
      timestamp := now }
  ({ s with
      sessionDateRange := some payload
      refreshCalls := s.refreshCalls + 1 },
   payload)

/-- `getStoredDateRange` (dashboard_layout.js, lines 51-54). -/
def getStoredDateRange (s : DashState) : Option DatePayload :=
  s.sessionDateRange

/-! ## dashboard_chart_api.js §4: fetch -/

/-- What the network returns for one chart request, before
`fetchChartData`'s error handling: either the `fetch` promise rejects
(network failure), or a response arrives with an HTTP status (`ok`), a
status text, and a body that either parses as JSON (`some body`) or does
not (`none`). -/
inductive NetResult where
  | thrown (msg : String)
  | response (ok : Bool) (statusText : String) (body : Option Response)
deriving Inhabited

/-- `fetchChartData` (dashboard_chart_api.js, lines 178-212): POSTs the
payload, parses the JSON, checks the HTTP status, and converts every
failure mode into a returned `{ success: false, error }` object — it never
throws.  In the HTTP-error case the code stores the parsed body (or the
status text) in `error`; the body case is collapsed to the status text
here since the field is only ever logged. -/
def fetchChartData (net : String → NetResult) (chartId : String) : Response :=
  match net chartId with
  | .thrown msg =>
      { success := some false, data := none, error := some msg }
  | .response _ _ none =>
      { success := some false, data := none, error := some "Invalid JSON from server" }
  | .response false statusText (some _) =>
      { success := some false, data := none, error := some statusText }
  | .response true _ (some body) => body

/-! ## Shared building blocks of the update handlers -/

/-- Sequencing of possibly-throwing steps: a thrown error aborts the rest
of the handler body but keeps the mutations made so far (JS semantics). -/
def andThenE (p : DashState × Option JsErr)
    (f : DashState → DashState × Option JsErr) : DashState × Option JsErr :=
  match p with
  | (s, none) => f s
  | (s, some e) => (s, some e)

/-- The raw labels assignment `chart.data.labels = labels || []`. -/
def rawLabels (d : ApiData) : List LabelVal :=
  (d.labels.getD []).map .str

/-- The label fallback used by the funnel and blended-CAC handlers:
`Array.isArray(apiData.labels) && apiData.labels.length ? apiData.labels
: chart.data.labels`. -/
def labelsOrKeep (d : ApiData) (c : ChartData) : List LabelVal :=
  match d.labels with
  | some ls => if ls.length ≠ 0 then ls.map .str else c.labels
  | none => c.labels

/-- Positional data assignment: entry `i` of `vs`, when `some`, overwrites
the `data` of dataset `i` when that dataset exists (the guarded
`if (chart.data.datasets[idx]) chart.data.datasets[idx].data = ...`
loops of the source). -/
def setDataList : List (Option SeriesData) → List DataSeries → List DataSeries
  | [], ds => ds
  | _, [] => []
  | v :: vs, d :: ds =>
      (match v with
       | some sd => { d with data := sd }
       | none => d) :: setDataList vs ds

/-- `datasets.find(d => typeof d.label === 'string' &&
d.label.toLowerCase().includes(sub))`. -/
def findDsByLabel (datasets : List RawDataset) (sub : String) :
    Option RawDataset :=
  datasets.find? (fun d =>
    match d.label with
    | some l => strIncludes l.toLower sub
    | none => false)

/-- The unguarded `chart.data.datasets[i].data = v` assignment: throws a
`TypeError` when dataset `i` does not exist. -/
def setSeriesDataAt (i : Nat) (v : SeriesData) (ds : List DataSeries) :
    Except JsErr (List DataSeries) :=
  if i < ds.length then
    .ok (ds.set i { ds.getD i default with data := v })
  else
    .error (.typeError "Cannot set properties of undefined (setting data)")

/-- Run an unguarded dataset-slot assignment against the chart of instance
`r`, propagating the `TypeError` when the slot is missing. -/
def assignSeries (r : Nat) (i : Nat) (v : SeriesData) (s : DashState) :
    DashState × Option JsErr :=
  match setSeriesDataAt i v (chartDataAt s r).datasets with
  | .error e => (s, some e)
  | .ok ds => (modChartDataAt r (fun c => { c with datasets := ds }) s, none)

/-- The common body shared by `updateCacTrendByChannelFromAPI`,
`updatePaidRoiByStageFromAPI`, `updateAttributionAccuracyFromAPI`,
`updateChannelCplCacRoasFromAPI`, `updateChannelTouchpointSplitFromAPI`
and `updateChannelSpendEfficiencyFromAPI`: assign `labels || []`, then for
each incoming dataset index that also exists on the chart, replace that
dataset's `data` with `ds.data || []`. -/
def multiSeriesData (d : ApiData) (c : ChartData) : ChartData :=
  { labels := rawLabels d
    datasets := setDataList
      ((d.datasets.getD []).map (fun rd => some (.nums (rd.data.getD []))))
      c.datasets }

/-- The common body shared by `updatePipelineValueFromAPI`,
`updateLtvByCohortFromAPI`, `updateTopChannelsRoasFromAPI` and
`updateAudienceRoasFromAPI`: assign `labels || []`, then replace dataset 0's
`data` with `datasets[0].data || []` when both the incoming and the chart
dataset 0 exist. -/
def singleSeriesData (d : ApiData) (c : ChartData) : ChartData :=
  { labels := rawLabels d
    datasets := setDataList
      [(d.datasets.getD []).head?.map (fun rd => SeriesData.nums (rd.data.getD []))]
      c.datasets }

/-! ## dashboard_chart_api.js §8.1: per-chart update handlers -/

/-- `splitChannel`'s money series (inner helper of
`updatePerfFunnelFromAPI`): the value at stages `Spend`/`Revenue` when it
is a number, `null` elsewhere. -/
def splitChannelMoney (dd : List (Option Rat)) (labels : List LabelVal) :
    List (Option Rat) :=
  labels.mapIdx (fun idx stage =>
    if stage = .str "Spend" ∨ stage = .str "Revenue" then dd.getD idx none
    else none)

/-- `splitChannel`'s ratio series: the value at stages `ROAS`/`ROI`
multiplied by 100 when it is a number, `null` elsewhere. -/
def splitChannelRatio (dd : List (Option Rat)) (labels : List LabelVal) :
    List (Option Rat) :=
  labels.mapIdx (fun idx stage =>
    if stage = .str "ROAS" ∨ stage = .str "ROI" then
      (dd.getD idx none).map (· * 100)
    else none)

/-- `splitChannel(channelName)` of `updatePerfFunnelFromAPI`: locate the
channel's dataset by label, then split its values into a money series and
a ratio series; a missing dataset yields two empty series. -/
def splitChannel (datasets : List RawDataset) (labels : List LabelVal)
    (channelName : String) : List (Option Rat) × List (Option Rat) :=
  match findDsByLabel datasets channelName with
  | none => ([], [])
  | some ds =>
    match ds.data with
    | none => ([], [])
    | some dd => (splitChannelMoney dd labels, splitChannelRatio dd labels)

/-- The `chart.data` transformation of `updatePerfFunnelFromAPI`
(dashboard_chart_api.js, lines 674-753): datasets 0-2 receive the money
series and datasets 3-5 the ratio series for Meta, Google and LinkedIn. -/
def updatePerfFunnelData (d : ApiData) (c : ChartData) : ChartData :=
  let labels := labelsOrKeep d c
  let datasets := d.datasets.getD []
  let meta := splitChannel datasets labels "meta"
  let google := splitChannel datasets labels "google"
  let linkedin := splitChannel datasets labels "linkedin"
  { labels := labels
    datasets := setDataList
      [some (.nums meta.1), some (.nums google.1), some (.nums linkedin.1),
       some (.nums meta.2), some (.nums google.2), some (.nums linkedin.2)]
      c.datasets }

/-- `updatePerfFunnelFromAPI`. -/
def updatePerfFunnelFromAPI (d : ApiData) : DashState → DashState :=
  modChartData "scalexPerfFunnelChart" (updatePerfFunnelData d)

/-- The `chart.data` transformation of `updateBlendedPaidCACFromAPI`
(lines 756-797): dataset 0 takes the series whose label contains
`blended`, dataset 1 the one containing `paid` (copies of the arrays). -/
def updateBlendedPaidCACData (d : ApiData) (c : ChartData) : ChartData :=
  let incoming := d.datasets.getD []
  { labels := labelsOrKeep d c
    datasets := setDataList
      [((findDsByLabel incoming "blended").bind (·.data)).map .nums,
       ((findDsByLabel incoming "paid").bind (·.data)).map .nums]
      c.datasets }

/-- `updateBlendedPaidCACFromAPI`. -/
def updateBlendedPaidCACFromAPI (d : ApiData) : DashState → DashState :=
  modChartData "scalexBlendedPaidCACChart" (updateBlendedPaidCACData d)

/-- `updateCacTrendByChannelFromAPI` (lines 800-819). -/
def updateCacTrendByChannelFromAPI (d : ApiData) : DashState → DashState :=
  modChartData "scalexCacTrendByChannelChart" (multiSeriesData d)

/-- `updatePaidRoiByStageFromAPI` (lines 822-840). -/
def updatePaidRoiByStageFromAPI (d : ApiData) : DashState → DashState :=
  modChartData "scalexPaidRoiByStageChart" (multiSeriesData d)

/-- `updatePipelineValueFromAPI` (lines 843-857). -/
def updatePipelineValueFromAPI (d : ApiData) : DashState → DashState :=
  modChartData "scalexPipelineValueChart" (singleSeriesData d)

/-- `updateLtvByCohortFromAPI` (lines 906-919). -/
def updateLtvByCohortFromAPI (d : ApiData) : DashState → DashState :=
  modChartData "scalexLtvByCohortChart" (singleSeriesData d)

/-- `updateAttributionAccuracyFromAPI` (lines 922-939). -/
def updateAttributionAccuracyFromAPI (d : ApiData) : DashState → DashState :=
  modChartData "scalexAttributionAccuracyChart" (multiSeriesData d)

/-- `updateTopChannelsRoasFromAPI` (lines 942-955). -/
def updateTopChannelsRoasFromAPI (d : ApiData) : DashState → DashState :=
  modChartData "scalexTopChannelsRoasChart" (singleSeriesData d)

/-- The successive `chart.data` mutations of `updateNewVsRepeatMixFromAPI`
computed as one pure step over the (shared, in-place mutated) data object:
the labels assignment first, then the unguarded slot-0 and slot-1 writes
for the incoming series labelled `new` and `repeat`; a throw at a missing
slot keeps the mutations made before it and yields the error. -/
def newVsRepeatCore (d : ApiData) (c : ChartData) : ChartData × Option JsErr :=
  let c1 : ChartData := { c with labels := rawLabels d }
  match d.datasets with
  | none => (c1, none)
  | some raws =>
    let afterNew : ChartData × Option JsErr :=
      match findDsByLabel raws "new" with
      | none => (c1, none)
      | some nd =>
        match setSeriesDataAt 0 (.nums (nd.data.getD [])) c1.datasets with
        | .error e => (c1, some e)
        | .ok ds => ({ c1 with datasets := ds }, none)
    match afterNew with
    | (c2, some e) => (c2, some e)
    | (c2, none) =>
      match findDsByLabel raws "repeat" with
      | none => (c2, none)
      | some rd =>
        match setSeriesDataAt 1 (.nums (rd.data.getD [])) c2.datasets with
        | .error e => (c2, some e)
        | .ok ds => ({ c2 with datasets := ds }, none)

/-- `updateNewVsRepeatMixFromAPI` (lines 958-991): applies the
`newVsRepeatCore` mutations to the chart's data object; on success it then
stores `__tooltipRevenue` on the instance, while a thrown `TypeError`
(missing dataset slot) aborts before the tooltip assignment. -/
def updateNewVsRepeatMixFromAPI (d : ApiData) (s : DashState) :
    DashState × Option JsErr :=
  match assocFind s.windowCharts "scalexNewVsRepeatMixChart" with
  | none => (s, none)
  | some r =>
    match newVsRepeatCore d (chartDataAt s r) with
    | (c2, some e) => (setChartDataAt r c2 s, some e)
    | (c2, none) =>
      (modInstAt r (fun i =>
        { i with
            tooltipRevenueNew := some ((d.tooltipRevenue.bind (·.tnew)).getD [])
            tooltipRevenueRepeat := some ((d.tooltipRevenue.bind (·.rep)).getD []) })
        (setChartDataAt r c2 s), none)

/-- `updateChannelCplCacRoasFromAPI` (lines 994-1011). -/
def updateChannelCplCacRoasFromAPI (d : ApiData) : DashState → DashState :=
  modChartData "scalexChannelCplCacRoasChart" (multiSeriesData d)

/-- `bubblePoints` construction of `updateCampaignRoiBubbleFromAPI`: one
point per incoming dataset, built from its `point` object and its label
split on the en dash. -/
def mkBubblePoint (currency : String) (ds : RawDataset) : BubblePoint :=
  let label := ds.label.getD "Campaign"
  let point := ds.point.getD default
  let roiPercent := point.roiPercent.getD 0
  let spend := point.spend.getD 0
  let revenue := point.revenue.getD 0
  let incrementalRoasPercent := point.incrementalRoasPercent.getD 0
  let spendLakh := spend / 100000
  let revenueLakh := revenue / 100000
  let parts := label.splitOn "–"
  let channel := (parts.headD "").trim
  let name := if parts.tail.length ≠ 0 then (String.intercalate "–" parts.tail).trim
              else label
  { x := roiPercent, y := spendLakh, rIn := revenueLakh
    metaName := name, metaChannel := channel, metaRoi := roiPercent
    metaSpendLakh := spendLakh, metaRevenueLakh := revenueLakh
    metaIncrRoas := incrementalRoasPercent, metaCurrency := currency }

/-- `updateCampaignRoiBubbleFromAPI` (lines 1014-1079).  With no incoming
datasets it clears dataset 0's data (an unguarded slot access that throws
when the chart has no datasets); otherwise it replaces dataset 0's data
and label, installing a fresh dataset array only when the chart's is
empty.  Finally stores `__currency` on the instance. -/
def updateCampaignRoiBubbleFromAPI (d : ApiData) (s : DashState) :
    DashState × Option JsErr :=
  match assocFind s.windowCharts "scalexCampaignRoiBubbleChart" with
  | none => (s, none)
  | some r =>
    let currency := d.currency.getD "INR"
    let datasets := d.datasets.getD []
    if datasets.length = 0 then
      assignSeries r 0 (.bubbles []) s
    else
      let bubblePoints := datasets.map (mkBubblePoint currency)
      let s :=
        modChartDataAt r (fun c =>
          if c.datasets.length = 0 then
            { c with datasets := [{ label := some "Campaigns"
                                    data := .bubbles bubblePoints
                                    backgroundColor := .unset
                                    borderColor := .unset }] }
          else
            { c with datasets :=
                c.datasets.set 0 { c.datasets.getD 0 default with
                                     data := .bubbles bubblePoints
                                     label := some "Campaigns" } }) s
      (modInstAt r (fun i => { i with currencyTag := some currency }) s, none)

/-- `updateChannelTouchpointSplitFromAPI` (lines 1081-1098). -/
def updateChannelTouchpointSplitFromAPI (d : ApiData) : DashState → DashState :=
  modChartData "scalexTouchpointSplitChart" (multiSeriesData d)

/-- `updateAudienceRoasFromAPI` (lines 1100-1113). -/
def updateAudienceRoasFromAPI (d : ApiData) : DashState → DashState :=
  modChartData "scalexAudienceRoasChart" (singleSeriesData d)

/-- The score-bucket colouring of `updateChannelLeadQualityFromAPI`
(`null >= 80` is false in JS, so a null score falls to the `bad` colour). -/
def leadQualityColor (score : Option Rat) : String :=
  match score with
  | some v => if 80 ≤ v then "#22C55E" else if 70 ≤ v then "#FBBF24" else "#F97373"
  | none => "#F97373"

/-- The `chart.data` mutations of `updateChannelLeadQualityFromAPI` as one
pure step: the labels assignment, the unguarded slot-0 data write (throws
when the chart has no datasets, keeping the labels mutation), then the
slot-0 recolouring from the score buckets. -/
def leadQualityCore (d : ApiData) (scores : List (Option Rat))
    (c : ChartData) : ChartData × Option JsErr :=
  let c1 : ChartData := { c with labels := rawLabels d }
  match setSeriesDataAt 0 (.nums scores) c1.datasets with
  | .error e => (c1, some e)
  | .ok ds =>
    let colors := scores.map leadQualityColor
    let d0 : DataSeries := ds.getD 0 default
    let d1 : DataSeries :=
      { d0 with backgroundColor := .perBar colors, borderColor := .perBar colors }
    ({ c1 with datasets := ds.set 0 d1 }, none)

/-- `updateChannelLeadQualityFromAPI` (lines 1116-1139). -/
def updateChannelLeadQualityFromAPI (d : ApiData) (s : DashState) :
    DashState × Option JsErr :=
  match assocFind s.windowCharts "scalexLeadQualityChart" with
  | none => (s, none)
  | some r =>
    match (d.datasets.getD []).head? with
    | none => (s, none)
    | some first =>
      match leadQualityCore d (first.data.getD []) (chartDataAt s r) with
      | (c2, e) => (setChartDataAt r c2 s, e)

/-- `updateChannelSpendEfficiencyFromAPI` (lines 1141-1161): the generic
multi-series update plus `chart.__efficiencyIndex = index || []`. -/
def updateChannelSpendEfficiencyFromAPI (d : ApiData) : DashState → DashState :=
  withWindowChart "scalexSpendEfficiencyChart" (fun r s =>
    let s := modChartDataAt r (multiSeriesData d) s
    modInstAt r (fun i => { i with efficiencyIndex := some (d.index.getD []) }) s)

/-- Apply a list of DOM writes in order. -/
def applyDomWrites (ws : List (String × DomVal)) (s : DashState) : DashState :=
  ws.foldl (fun s kv => domWrite kv.1 kv.2 s) s

/-- The sequence of DOM writes of `updateLtvCacRatioFromAPI`, as a pure
function of the three element-presence flags and the data: the ratio and
subtext writes dereference `ratio` resp. `ltv`/`cac` without a presence
check, so they throw a `TypeError` when the field is absent and the
target element exists, keeping the writes made before the throw. -/
def ltvSteps (hasRatio hasSub hasBadge : Bool) (d : ApiData) :
    List (String × DomVal) × Option JsErr :=
  let stepR : List (String × DomVal) × Option JsErr :=
    if hasRatio then
      match d.ratio with
      | some v => ([("detail-ltv-ratio", DomVal.ltvRatio v)], none)
      | none => ([], some (.typeError "Cannot read properties of undefined (reading toFixed)"))
    else ([], none)
  match stepR with
  | (ws, some e) => (ws, some e)
  | (ws, none) =>
    let stepS : List (String × DomVal) × Option JsErr :=
      if hasSub then
        match d.ltv, d.cac with
        | some lv, some cv =>
            (ws ++ [("detail-ltv-subtext", DomVal.ltvSub lv cv)], none)
        | _, _ => (ws, some (.typeError "Cannot read properties of undefined (reading toLocaleString)"))
      else (ws, none)
    match stepS with
    | (ws2, some e) => (ws2, some e)
    | (ws2, none) =>
      if hasBadge then
        let cls := "detail-ltv-badge--" ++ d.status.getD "undefined"
        let text := if d.status = some "healthy" then "Healthy"
                    else if d.status = some "warning" then "Watch"
                    else "At Risk"
        (ws2 ++ [("detail-ltv-badge", DomVal.ltvBadge cls text)], none)
      else (ws2, none)

/-- `updateLtvCacRatioFromAPI` (lines 859-903): pure DOM updates on the
LTV:CAC card; a missing card is a no-op. -/
def updateLtvCacRatioFromAPI (d : ApiData) (s : DashState) :
    DashState × Option JsErr :=
  if !(domElem s "ltv-card") then (s, none)
  else
    match ltvSteps (domElem s "detail-ltv-ratio") (domElem s "detail-ltv-subtext")
        (domElem s "detail-ltv-badge") d with
    | (ws, e) => (applyDomWrites ws s, e)

/-! ## KPI cards, smart alerts, creative tiles, snapshot table -/

/-- The per-KPI configuration table of `updateKpiCards` (the `format`
function is recorded by name). -/
structure KpiCfg where
  pre : String
  suf : String
  prevPre : String
  invert : Bool
  fmt : String
  color : String
  fill : String
deriving DecidableEq, Repr, Inhabited

/-- `kpiConfig` of `updateKpiCards` (dashboard_chart_api.js, lines
519-556). -/
def kpiConfig (kpiType : String) : Option KpiCfg :=
  if kpiType = "revenue" then
    some { pre := "₹ ", suf := "", prevPre := "Prev: ₹ ", invert := false
           fmt := "number", color := "#22C55E", fill := "rgba(34,197,94,0.12)" }
  else if kpiType = "spend" then
    some { pre := "₹ ", suf := "", prevPre := "Prev: ₹ ", invert := true
           fmt := "number", color := "#6366F1", fill := "rgba(99,102,241,0.16)" }
  else if kpiType = "roas" then
    some { pre := "", suf := "x", prevPre := "Prev: ", invert := false
           fmt := "oneDecimal", color := "#FBBF24", fill := "rgba(251,191,36,0.16)" }
  else if kpiType = "roi" then
    some { pre := "", suf := "%", prevPre := "Prev: ", invert := false
           fmt := "oneDecimal", color := "#EC4899", fill := "rgba(236,72,153,0.18)" }
  else none

/-- `applyChange` (dashboard_charts.js, lines 669-680) recorded
structurally: arrow, sign, good/bad class, and the percentage. -/
def applyChangeVal (pct : Rat) (invert : Bool) : DomVal :=
  let isUp := decide (0 ≤ pct)
  let good := if invert then !isUp else isUp
  .change (if isUp then "▲" else "▼") (if 0 ≤ pct then "+" else "")
    (if good then "up" else "down") pct

/-- `renderKPISparkline` (dashboard_chart_api.js, lines 446-500): destroys
the cached sparkline for `cacheKey` (errors swallowed), creates a fresh
`Chart` whose labels are `1..n` and whose single dataset carries the
values, and caches the new instance.  Missing canvas or empty values are
a no-op.  KPI canvases take part in neither the registry nor the modal,
so the new instance's canvas id is recorded as 0. -/
def renderKPISparkline (destroyThrows : Nat → Bool) (canvasPresent : Bool)
    (values : Option (List Rat)) (strokeColor fillColor cacheKey : String)
    (s : DashState) : DashState :=
  if !canvasPresent then s
  else
    match values with
    | none => s
    | some vs =>
      if vs.length = 0 then s
      else
        let s :=
          if cacheKey ≠ "" then
            match assocFind s.kpiCharts cacheKey with
            | some r =>
                let s := tryDestroy destroyThrows r s
                { s with kpiCharts := assocDrop s.kpiCharts cacheKey }
            | none => s
          else s
        let cd : ChartData :=
          { labels := (List.range vs.length).map (fun i => .num ((i + 1 : Nat) : Rat))
            datasets := [{ label := none, data := .nums (vs.map some)
                           backgroundColor := .single fillColor
                           borderColor := .single strokeColor }] }
        let p := allocChart 0 cd s
        if cacheKey ≠ "" then
          { p.1 with kpiCharts := assocSet p.1.kpiCharts cacheKey p.2 }
        else p.1

/-- The DOM writes of `updateKpiCards` as a pure function of the three
element-presence flags: each of the current/previous/change elements is
updated when it exists and the corresponding data field is a number.  The
double write to the previous-value element collapses to its final value:
for revenue/spend the prefix is `prevPrefix` alone, otherwise
`prevPrefix + prefix`. -/
def kpiWrites (cfg : KpiCfg) (kpiType : String)
    (hasCurr hasPrev hasChange : Bool) (d : ApiData)
    (currId prevId changeId : String) : List (String × DomVal) :=
  (match d.currentValue with
   | some v =>
     if hasCurr then [(currId, DomVal.kpiVal cfg.pre cfg.fmt v cfg.suf)] else []
   | none => []) ++
  (match d.previousValue with
   | some v =>
     if hasPrev then
       [(prevId, DomVal.kpiPrev
          (if kpiType = "revenue" ∨ kpiType = "spend" then cfg.prevPre
           else cfg.prevPre ++ cfg.pre) cfg.fmt v cfg.suf)]
     else []
   | none => []) ++
  (match d.deltaPercent with
   | some pct =>
     if hasChange then [(changeId, applyChangeVal pct cfg.invert)] else []
   | none => [])

/-- `updateKpiCards` (dashboard_chart_api.js, lines 517-596): performs the
guarded DOM writes, then re-renders the sparkline when the canvas exists
and the sparkline array is non-empty. -/
def updateKpiCards (destroyThrows : Nat → Bool) (d : ApiData)
    (currId prevId changeId canvasId kpiType : String) (s : DashState) :
    DashState :=
  match kpiConfig kpiType with
  | none => s
  | some cfg =>
    let s1 := applyDomWrites
      (kpiWrites cfg kpiType (domElem s currId) (domElem s prevId)
        (domElem s changeId) d currId prevId changeId) s
    match d.sparkline with
    | some vals =>
      if vals.length ≠ 0 then
        renderKPISparkline destroyThrows (domElem s1 canvasId) (some vals)
          cfg.color cfg.fill kpiType s1
      else s1
    | none => s1

/-- `mapSeverityToClasses` (dashboard_charts.js, lines 835-863), returning
(highlight class, symbol class, fallback icon). -/
def mapSeverityToClasses (severity : Option String) :
    String × String × String :=
  if severity = some "positive" then
    ("alert-highlight-green", "alert-symbol--green", "▲")
  else if severity = some "warning" then
    ("alert-highlight-amber", "alert-symbol--amber", "⚠")
  else if severity = some "negative" then
    ("alert-highlight-red", "alert-symbol--red", "▼")
  else
    ("alert-highlight-sky", "alert-symbol--sky", "★")

/-- `mapIconCode` (dashboard_charts.js, lines 865-875). -/
def mapIconCode (icon : Option String) : String :=
  if icon = some "up" then "▲"
  else if icon = some "down" then "▼"
  else if icon = some "warn" then "⚠"
  else if icon = some "star" then "★"
  else if icon = some "flat" then "▶"
  else ""

/-- `mapIconColor` (dashboard_charts.js, lines 877-887). -/
def mapIconColor (icon : Option String) : String :=
  if icon = some "up" then "alert-symbol--green"
  else if icon = some "down" then "alert-symbol--red"
  else if icon = some "warn" then "alert-symbol--amber"
  else "alert-symbol--sky"

/-- `updateSmartAlertCard` (dashboard_chart_api.js, lines 603-671): when
the card and its six sub-elements exist (sub-structure presence is the
`cardId#structure` key), records the card's final label, texts, colour
classes and icon as one composite write keyed by the card id. -/
def updateSmartAlertCard (cardId cardLabel : String) (d : ApiData)
    (s : DashState) : DashState :=
  if !(domElem s cardId) then s
  else if !(domElem s (cardId ++ "#structure")) then s
  else
    let sev := mapSeverityToClasses d.severity
    let iconChar := if mapIconCode d.icon ≠ "" then mapIconCode d.icon else sev.2.2
    domWrite cardId
      (.alert cardLabel (d.mainPrefix.getD "") (d.mainHighlight.getD "")
        (d.mainSuffix.getD "") (d.subtext.getD "") sev.1 sev.2.1
        ("alert-card--" ++ d.severity.getD "undefined") iconChar) s

/-- One tile update of `updateCreativePerfTilesFromAPI`: `none` numeric
values record JavaScript's `NaN` (from `Number(undefined)`). -/
def updateTile (key kind : String) (m : TileMetric) (s : DashState) :
    DashState :=
  if !(domElem s key) then s
  else
    let arrow := mapIconCode m.direction
    let cls := mapIconColor m.direction
    if kind = "cpc" then
      domWrite key (.tile arrow cls kind m.currentValue (m.deltaPercent.map (|·|))) s
    else
      domWrite key (.tile arrow cls kind m.currentPercent m.deltaPoints) s

/-- `updateCreativePerfTilesFromAPI` (dashboard_chart_api.js, lines
1164-1207): requires all three metric objects, then updates whichever of
the three tiles exist. -/
def updateCreativePerfTilesFromAPI (d : ApiData) (s : DashState) : DashState :=
  match d.ctr, d.cpc, d.engagement with
  | some mCtr, some mCpc, some mEng =>
    if !(domElem s "metric-tile-ctr") && !(domElem s "metric-tile-cpc") &&
       !(domElem s "metric-tile-engagement") then s
    else
      let s := updateTile "metric-tile-ctr" "ctr" mCtr s
      let s := updateTile "metric-tile-cpc" "cpc" mCpc s
      updateTile "metric-tile-engagement" "engagement" mEng s
  | _, _, _ => s

/-- `columns ? columns.indexOf(key) : fallback` — `none` models
JavaScript's `-1`. -/
def colIdx (columns : Option (List String)) (key : String) (fallback : Nat) :
    Option Nat :=
  match columns with
  | none => some fallback
  | some cs =>
    let rec go : List String → Nat → Option Nat
      | [], _ => none
      | c :: rest, i => if c = key then some i else go rest (i + 1)
    go cs 0

/-- `getCell` of `updateChannelSnapshotTableFromAPI`: a cell is read only
when the column index is non-negative and inside the row. -/
def getCell (row : List (Option CellVal)) (idx : Option Nat) :
    Option CellVal :=
  match idx with
  | none => none
  | some i => if i < row.length then row.getD i none else none

/-- The rendered cells of one table row, in column order; the channel cell
applies the `?? ''` default. -/
def renderSnapshotRow (columns : Option (List String))
    (row : List (Option CellVal)) : List (Option CellVal) :=
  [some ((getCell row (colIdx columns "channel" 0)).getD (.s "")),
   getCell row (colIdx columns "spend" 1),
   getCell row (colIdx columns "revenue" 2),
   getCell row (colIdx columns "cpl" 3),
   getCell row (colIdx columns "cac" 4),
   getCell row (colIdx columns "roas" 5),
   getCell row (colIdx columns "roiPercent" 6),
   getCell row (colIdx columns "leadQuality" 7)]

/-- `updateChannelSnapshotTableFromAPI` (dashboard_chart_api.js, lines
1210-1271): with a non-empty `rows` array and the table body present,
replaces the body with the rendered rows and stores
`window.scalexChannelSnapshotLatest`. -/
def updateChannelSnapshotTableFromAPI (d : ApiData) (s : DashState) :
    DashState :=
  match d.rows with
  | none => s
  | some rows =>
    if rows.length = 0 then s
    else if !(domElem s "channel-performance-table") then s
    else
      let s := domWrite "channel-performance-table"
        (.tableRows (rows.map (renderSnapshotRow d.columns))) s
      let latest : SnapshotLatest :=
        { columns := d.columns, rows := rows, currency := d.currency.getD "INR" }
      { s with snapshotLatest := some latest }

/-! ## dashboard_chart_api.js §8.2: the render dispatch table -/

/-- The chart identifiers the dispatch switch of `renderChartFromAPI`
recognises, in source order. -/
def knownChartIds : List String :=
  [ "kpi_revenue", "kpi_ad_spend", "kpi_roas", "kpi_roi",
    "alert_performance_gain", "alert_channel_mix", "alert_budget_reallocation",
    "perf_funnel_by_channel", "perf_cac_blended_vs_paid",
    "perf_cac_trend_by_channel", "perf_paid_roi_by_stage",
    "perf_pipeline_value", "perf_ltv_cac_ratio", "perf_ltv_by_cohort",
    "perf_attribution_accuracy", "perf_top_channels_roas",
    "perf_new_vs_repeat_mix",
    "channel_cpl_cac_roas", "campaign_roi_bubble", "channel_touchpoint_split",
    "audience_roas", "channel_lead_quality", "channel_spend_efficiency",
    "creative_perf_tiles", "channel_snapshot_table" ]

/-- Lift a non-throwing handler into the dispatcher's result type. -/
def pureH (f : DashState → DashState) (s : DashState) :
    DashState × Option JsErr :=
  (f s, none)

/-- The `switch (chartId)` of `renderChartFromAPI`, as a map from the
identifier to the update action it runs on the state (the conditions do
not depend on the state, only on the identifier). -/
def dispatchHandler (destroyThrows : Nat → Bool) (chartId : String)
    (d : ApiData) : DashState → DashState × Option JsErr :=
  if chartId = "kpi_revenue" then
    pureH (updateKpiCards destroyThrows d "rev-current" "rev-prev" "rev-change" "rev-chart" "revenue")
  else if chartId = "kpi_ad_spend" then
    pureH (updateKpiCards destroyThrows d "spend-current" "spend-prev" "spend-change" "spend-chart" "spend")
  else if chartId = "kpi_roas" then
    pureH (updateKpiCards destroyThrows d "roas-current" "roas-prev" "roas-change" "roas-chart" "roas")
  else if chartId = "kpi_roi" then
    pureH (updateKpiCards destroyThrows d "roi-current" "roi-prev" "roi-change" "roi-chart" "roi")
  else if chartId = "alert_performance_gain" then
    pureH (updateSmartAlertCard "alert-card-performance-gain" "Performance Gain" d)
  else if chartId = "alert_channel_mix" then
    pureH (updateSmartAlertCard "alert-card-channel-mix" "Channel Mix Efficiency" d)
  else if chartId = "alert_budget_reallocation" then
    pureH (updateSmartAlertCard "alert-card-budget-risk" "Budget / Risk" d)
  else if chartId = "perf_funnel_by_channel" then
    pureH (updatePerfFunnelFromAPI d)
  else if chartId = "perf_cac_blended_vs_paid" then
    pureH (updateBlendedPaidCACFromAPI d)
  else if chartId = "perf_cac_trend_by_channel" then
    pureH (updateCacTrendByChannelFromAPI d)
  else if chartId = "perf_paid_roi_by_stage" then
    pureH (updatePaidRoiByStageFromAPI d)
  else if chartId = "perf_pipeline_value" then
    pureH (updatePipelineValueFromAPI d)
  else if chartId = "perf_ltv_cac_ratio" then
    updateLtvCacRatioFromAPI d
  else if chartId = "perf_ltv_by_cohort" then
    pureH (updateLtvByCohortFromAPI d)
  else if chartId = "perf_attribution_accuracy" then
    pureH (updateAttributionAccuracyFromAPI d)
  else if chartId = "perf_top_channels_roas" then
    pureH (updateTopChannelsRoasFromAPI d)
  else if chartId = "perf_new_vs_repeat_mix" then
    updateNewVsRepeatMixFromAPI d
  else if chartId = "channel_cpl_cac_roas" then
    pureH (updateChannelCplCacRoasFromAPI d)
  else if chartId = "campaign_roi_bubble" then
    updateCampaignRoiBubbleFromAPI d
  else if chartId = "channel_touchpoint_split" then
    pureH (updateChannelTouchpointSplitFromAPI d)
  else if chartId = "audience_roas" then
    pureH (updateAudienceRoasFromAPI d)
  else if chartId = "channel_lead_quality" then
    updateChannelLeadQualityFromAPI d
  else if chartId = "channel_spend_efficiency" then
    pureH (updateChannelSpendEfficiencyFromAPI d)
  else if chartId = "creative_perf_tiles" then
    pureH (updateCreativePerfTilesFromAPI d)
  else if chartId = "channel_snapshot_table" then
    pureH (updateChannelSnapshotTableFromAPI d)
  else
    fun s => (s, none)

/-- `window.renderChartFromAPI` (dashboard_chart_api.js, lines 1284-1402):
drops null responses and responses with `success === false`, then
dispatches `response.data || {}` to the identifier's handler; identifiers
outside the table are logged and skipped. -/
def renderChartFromAPI (destroyThrows : Nat → Bool) (chartId : String)
    (response : Option Response) (s : DashState) : DashState × Option JsErr :=
  match response with
  | none => (s, none)
  | some resp =>
    if resp.success = some false then (s, none)
    else
      dispatchHandler destroyThrows chartId (resp.data.getD ApiData.empty) s

/-! ## dashboard_chart_api.js §5: refresh -/

/-- `window.showLoader` (lines 218-221). -/
def showLoader (s : DashState) : DashState :=
  if domElem s "loader" then { s with loaderVisible := true } else s

/-- `window.hideLoader` (lines 223-226). -/
def hideLoader (s : DashState) : DashState :=
  if domElem s "loader" then { s with loaderVisible := false } else s

/-- The entry bookkeeping of `refreshPage`: update `CURRENT_PAGE` and
sessionStorage `"activePage"`. -/
def setActivePage (pageName : String) (s : DashState) : DashState :=
  { s with currentPage := pageName, sessionActivePage := some pageName }

/-- The dispatch loop over the settled results: each fulfilled pair is
handed to `renderChartFromAPI`; an exception thrown by a handler aborts
the loop (JS `for ... of` semantics) and is re-raised after the `finally`
block. -/
def runDispatchList (destroyThrows : Nat → Bool) :
    List (String × Response) → DashState → DashState × Option JsErr
  | [], s => (s, none)
  | (id, r) :: rest, s =>
    match renderChartFromAPI destroyThrows id (some r) s with
    | (s1, none) => runDispatchList destroyThrows rest s1
    | (s1, some e) => (s1, some e)

/-- `refreshPage` (dashboard_chart_api.js, lines 256-305): records the new
active page, shows the loader, issues one `fetchChartData` per identifier
of `getChartsForPage` (since `fetchChartData` converts every failure into
a returned error object, `Promise.allSettled` fulfils every entry), then
dispatches each settled result in list order; the `finally` block hides
the loader before any handler exception propagates to the caller. -/
def refreshPage (net : String → NetResult) (destroyThrows : Nat → Bool)
    (pageName : String) (s : DashState) : DashState × Option JsErr :=
  let s := showLoader (setActivePage pageName s)
  let chartList := getChartsForPage pageName
  let results := chartList.map (fun id => (id, fetchChartData net id))
  let p := runDispatchList destroyThrows results s
  (hideLoader p.1, p.2)

/-! ## dashboard_charts.js §4: chart modal -/

/-- `openChartModalFromCanvas` (dashboard_charts.js, lines 243-318):
requires the modal elements, looks the source chart up in
`scalexChartRegistry`, destroys any previous modal chart (errors
swallowed), extracts title and subtitle from the canvas attributes,
shows and sizes the modal, and creates the mirror chart with
`data: baseConfig.data` — the source chart's data object passed by
reference, not copied. -/
def openChartModalFromCanvas (destroyThrows : Nat → Bool) (canvas : Nat)
    (parentW parentH : Nat) (s : DashState) : DashState :=
  if !(domElem s "chart-modal" && domElem s "chart-modal-canvas") then s
  else
    match assocFindN s.registry canvas with
    | none => s
    | some srcRef =>
      let s :=
        match s.modalChart with
        | some m => { tryDestroy destroyThrows m s with modalChart := none }
        | none => s
      let s := { s with modalSourceCanvas := some canvas }
      let info := (assocFindN s.canvasAttrs canvas).getD default
      let title := ((info.chartTitle).orElse (fun _ => info.closestTitle)).getD "Chart"
      let subtitleText := (info.cardSubtitle).getD ""
      let s := if domElem s "chart-modal-title" then
                 domWrite "chart-modal-title" (.str title) s
               else s
      let s := if domElem s "chart-modal-subtitle" then
                 domWrite "chart-modal-subtitle" (.str subtitleText) s
               else s
      let s := { s with
                   modalTitle := title
                   modalSubtitle := subtitleText
                   modalVisible := true
                   modalCanvasW := (if parentW = 0 then 800 else parentW) * 2
                   modalCanvasH := (if parentH = 0 then 500 else parentH) * 2 }
      let dref := (s.insts.getD srcRef default).dataRef
      let p := allocChartAliasing s.modalCanvasRef dref s
      { p.1 with modalChart := some p.2 }

/-- `closeChartModal` (dashboard_charts.js, lines 327-343): hides the
modal, destroys the mirror chart when one exists (destroy errors
swallowed by the `try/catch`), and clears the modal state variables. -/
def closeChartModal (destroyThrows : Nat → Bool) (s : DashState) :
    DashState :=
  let s := if domElem s "chart-modal" then { s with modalVisible := false } else s
  let s :=
    match s.modalChart with
    | some m => { tryDestroy destroyThrows m s with modalChart := none }
    | none => s
  { s with modalSourceCanvas := none, modalTitle := "", modalSubtitle := "" }

/-- `clearDetailCharts` (dashboard_charts.js, lines 471-488): destroys
every chart in `scalexDetailCharts` (each destroy individually wrapped in
`try/catch`), empties the array, and clears the container element. -/
def clearDetailCharts (destroyThrows : Nat → Bool) (s : DashState) :
    DashState :=
  let s := s.detailCharts.foldl (fun s r => tryDestroy destroyThrows r s) s
  let s := { s with detailCharts := [] }
  if domElem s "detail-charts" then domWrite "detail-charts" (.str "") s else s

/-! ## Basic lemmas about the association-list and data primitives -/

theorem assocSet_assocSet {α : Type} (l : List (String × α)) (k : String)
    (v w : α) : assocSet (assocSet l k v) k w = assocSet l k w := by
  unfold assocSet
  simp [List.filter_filter]

theorem setDataList_nil (ds : List DataSeries) :
    setDataList [] ds = ds := by
  cases ds <;> rfl

theorem setDataList_idem (vs : List (Option SeriesData)) :
    ∀ ds : List DataSeries, setDataList vs (setDataList vs ds) = setDataList vs ds := by
  induction vs with
  | nil => intro ds; rw [setDataList_nil]
  | cons v vs ih =>
    intro ds
    cases ds with
    | nil => rfl
    | cons d tl =>
      cases v with
      | none => simp [setDataList, ih]
      | some sd => simp [setDataList, ih]

theorem setDataList_length (vs : List (Option SeriesData)) :
    ∀ ds : List DataSeries, (setDataList vs ds).length = ds.length := by
  induction vs with
  | nil => intro ds; rw [setDataList_nil]
  | cons v vs ih =>
    intro ds
    cases ds with
    | nil => rfl
    | cons d tl => cases v <;> simp [setDataList, ih]

theorem setDataList_data (vs : List (Option SeriesData)) :
    ∀ ds : List DataSeries, vs.length = ds.length → (∀ v ∈ vs, v.isSome) →
      (setDataList vs ds).map (fun d => d.data)
        = vs.map (fun v => v.getD default) := by
  induction vs with
  | nil =>
    intro ds h _
    cases ds with
    | nil => rfl
    | cons d tl => simp at h
  | cons v vs ih =>
    intro ds h hsome
    cases ds with
    | nil => simp at h
    | cons d tl =>
      cases v with
      | none =>
        exact absurd (hsome none (by simp)) (by simp)
      | some sd =>
        simp only [setDataList, List.map_cons, Option.getD_some]
        exact congrArg (List.cons sd)
          (ih tl (by simpa using h) (fun w hw => hsome w (by simp [hw])))
/-! ## A minimal concrete state for witnesses and counterexamples -/

/-- A dashboard state with empty heaps, no registered charts and an empty
document. -/
def emptyState : DashState :=
  { currentPage := "performance-overview"
    sessionActivePage := none
    sessionDateRange := none
    datas := []
    insts := []
    windowCharts := []
    kpiCharts := []
    detailCharts := []
    registry := []
    modalChart := none
    modalSourceCanvas := none
    modalTitle := ""
    modalSubtitle := ""
    modalVisible := false
    modalCanvasW := 0
    modalCanvasH := 0
    modalCanvasRef := 0
    snapshotLatest := none
    loaderVisible := false
    dom := []
    domPresent := []
    canvasAttrs := []
    refreshCalls := 0 }

/-! ## Claim C3: filter-store validation -/

/-- Claim C3, counterexample: the write
`storeDateRange("2025-01-01", "2024-01-01")` has its start strictly after
its end, yet it is not rejected — it changes the stored date range and
triggers a page refresh, contradicting the claimed validation. -/
theorem storeDateRange_invalid_range_applied :
    "2024-01-01".data < "2025-01-01".data ∧
    (storeDateRange "2025-01-01" "2024-01-01" "2025-06-01T00:00:00.000Z"
        emptyState).1.sessionDateRange ≠ emptyState.sessionDateRange ∧
    (storeDateRange "2025-01-01" "2024-01-01" "2025-06-01T00:00:00.000Z"
        emptyState).1.refreshCalls = emptyState.refreshCalls + 1 :=
  ⟨by decide, by decide, rfl⟩

/-- Claim C3 (amended): every filter-store write succeeds unconditionally —
`storeDateRange` performs no validation of the range, persists the payload
built from the given dates, triggers exactly one page refresh, and returns
the payload; this holds whether or not start ≤ end. -/
theorem storeDateRange_always_persists (startDate endDate now : String)
    (s : DashState) :
    storeDateRange startDate endDate now s =
      ({ s with
           sessionDateRange := some
             { dateRange := { startDate := startDate, endDate := endDate }
               comparison := false
               timestamp := now }
           refreshCalls := s.refreshCalls + 1 },
       { dateRange := { startDate := startDate, endDate := endDate }
         comparison := false
         timestamp := now }) := rfl

/-! ## Claim C10: the page-to-charts mapping -/

/-- Claim C10: `getChartsForPage` returns exactly 17 identifiers for
`performance-overview`, exactly 8 for `channel-campaign-analytics`, and the
empty list for every other page key; consequently `refreshPage` on an
unrecognised page consults the network for nothing (its result does not
depend on the fetch oracle) and dispatches nothing (the state changes only
by the page/loader bookkeeping). -/
theorem getChartsForPage_fixed :
    (getChartsForPage "performance-overview").length = 17 ∧
    (getChartsForPage "channel-campaign-analytics").length = 8 ∧
    (∀ p, p ≠ "performance-overview" → p ≠ "channel-campaign-analytics" →
      getChartsForPage p = []) ∧
    (∀ net net2 dt dt2 p s,
      p ≠ "performance-overview" → p ≠ "channel-campaign-analytics" →
      refreshPage net dt p s = (hideLoader (showLoader (setActivePage p s)), none) ∧
      refreshPage net dt p s = refreshPage net2 dt2 p s) := by
  refine ⟨rfl, rfl, ?_, ?_⟩
  · intro p h1 h2
    simp [getChartsForPage, h1, h2]
  · intro net net2 dt dt2 p s h1 h2
    have h : getChartsForPage p = [] := by simp [getChartsForPage, h1, h2]
    constructor
    · simp [refreshPage, h, runDispatchList]
    · simp [refreshPage, h, runDispatchList]

/-- Claim C10, witness at the unrecognised page key `"login"`. -/
theorem getChartsForPage_fixed_witness :
    getChartsForPage "login" = [] ∧
    refreshPage (fun _ => .thrown "offline") (fun _ => false) "login" emptyState
      = (hideLoader (showLoader (setActivePage "login" emptyState)), none) := by
  constructor
  · exact getChartsForPage_fixed.2.2.1 "login" (by decide) (by decide)
  · exact (getChartsForPage_fixed.2.2.2 (fun _ => .thrown "offline")
      (fun _ => .thrown "offline") (fun _ => false) (fun _ => false)
      "login" emptyState (by decide) (by decide)).1

/-! ## Claim C7: unknown identifiers in the dispatch table -/

/-- Claim C7: a response whose chart identifier is outside the dispatch
table is skipped — the dispatcher leaves the state exactly as it was and
raises no error, so every other identifier of the same refresh is handled
as if the unknown response had not existed. -/
theorem renderChartFromAPI_unknown_id (dt : Nat → Bool) (chartId : String)
    (response : Option Response) (s : DashState)
    (h : chartId ∉ knownChartIds) :
    renderChartFromAPI dt chartId response s = (s, none) := by
  simp only [knownChartIds, List.mem_cons, List.not_mem_nil, or_false,
    not_or] at h
  obtain ⟨h1, h2, h3, h4, h5, h6, h7, h8, h9, h10, h11, h12, h13, h14, h15,
    h16, h17, h18, h19, h20, h21, h22, h23, h24, h25⟩ := h
  cases response with
  | none => rfl
  | some resp =>
    have hh : dispatchHandler dt chartId (resp.data.getD ApiData.empty)
        = fun s => (s, none) := by
      unfold dispatchHandler
      simp [h1, h2, h3, h4, h5, h6, h7, h8, h9, h10, h11, h12, h13, h14,
        h15, h16, h17, h18, h19, h20, h21, h22, h23, h24, h25]
    simp only [renderChartFromAPI, hh]
    split <;> rfl

/-- Claim C7, witness at the unknown identifier `"forecast_widget"`. -/
theorem renderChartFromAPI_unknown_id_witness :
    "forecast_widget" ∉ knownChartIds ∧
    renderChartFromAPI (fun _ => false) "forecast_widget"
      (some { success := some true, data := none, error := none }) emptyState
      = (emptyState, none) :=
  ⟨by decide, renderChartFromAPI_unknown_id _ _ _ _ (by decide)⟩
/-! ## Claim C8: teardown safety -/

theorem tryDestroy_insts_length (dt : Nat → Bool) (a : Nat) (s : DashState) :
    (tryDestroy dt a s).insts.length = s.insts.length := by
  unfold tryDestroy destroyInst modInstAt
  split <;> simp

theorem tryDestroy_detailCharts (dt : Nat → Bool) (a : Nat) (s : DashState) :
    (tryDestroy dt a s).detailCharts = s.detailCharts := by
  unfold tryDestroy destroyInst modInstAt
  split <;> rfl

theorem tryDestroy_destroyed_self (dt : Nat → Bool) (r : Nat) (s : DashState)
    (hlen : r < s.insts.length) (hdt : dt r = false) :
    ((tryDestroy dt r s).insts.getD r default).destroyed = true := by
  unfold tryDestroy destroyInst modInstAt
  rw [hdt]
  simp only [Bool.false_eq_true, if_false]
  rw [List.getD_eq_getElem?_getD, List.getElem?_set_self (by simpa using hlen)]
  rfl

theorem tryDestroy_destroyed_pres (dt : Nat → Bool) (a r : Nat) (s : DashState)
    (h : ((s.insts.getD r default)).destroyed = true) :
    (((tryDestroy dt a s).insts.getD r default)).destroyed = true := by
  unfold tryDestroy destroyInst modInstAt
  split
  · exact h
  · by_cases hra : a = r
    · subst hra
      by_cases hlen : a < s.insts.length
      · rw [List.getD_eq_getElem?_getD, List.getElem?_set_self (by simpa using hlen)]
        rfl
      · rw [List.set_eq_of_length_le (by omega)]
        exact h
    · rw [List.getD_eq_getElem?_getD, List.getElem?_set_ne hra,
        ← List.getD_eq_getElem?_getD]
      exact h

theorem foldl_tryDestroy_destroyed_pres (dt : Nat → Bool) (l : List Nat) :
    ∀ (s : DashState) (r : Nat), ((s.insts.getD r default)).destroyed = true →
      (((l.foldl (fun s a => tryDestroy dt a s) s).insts.getD r default)).destroyed
        = true := by
  induction l with
  | nil => intro s r h; exact h
  | cons a tl ih =>
    intro s r h
    exact ih _ r (tryDestroy_destroyed_pres dt a r s h)

theorem foldl_tryDestroy_detailCharts (dt : Nat → Bool) (l : List Nat) :
    ∀ s : DashState,
      (l.foldl (fun s a => tryDestroy dt a s) s).detailCharts
        = s.detailCharts := by
  induction l with
  | nil => intro s; rfl
  | cons a tl ih =>
    intro s
    rw [List.foldl_cons, ih, tryDestroy_detailCharts]

theorem foldl_tryDestroy_destroys (dt : Nat → Bool) (l : List Nat) :
    ∀ (s : DashState) (r : Nat), r ∈ l → r < s.insts.length → dt r = false →
      (((l.foldl (fun s a => tryDestroy dt a s) s).insts.getD r default)).destroyed
        = true := by
  induction l with
  | nil => intro s r h; exact absurd h (List.not_mem_nil r)
  | cons a tl ih =>
    intro s r hr hlen hdt
    rw [List.foldl_cons]
    rcases List.mem_cons.mp hr with h | h
    · subst h
      exact foldl_tryDestroy_destroyed_pres dt tl _ r
        (tryDestroy_destroyed_self dt r s hlen hdt)
    · exact ih _ r h (by rw [tryDestroy_insts_length]; exact hlen) hdt

/-- Claim C8: the modal-mirror close never throws and always clears the
mirror state — the four state variables end cleared for every destroy
oracle, because a throwing destroy is swallowed by the `try/catch`; when
no mirror is open the call changes nothing beyond adding the modal's
`hidden` class; and `clearDetailCharts` empties the collection for every
oracle, with every chart whose destroy does not throw actually
destroyed. -/
theorem closeChartModal_clearDetailCharts_safe (dt : Nat → Bool)
    (s : DashState) :
    ((closeChartModal dt s).modalChart = none ∧
     (closeChartModal dt s).modalSourceCanvas = none ∧
     (closeChartModal dt s).modalTitle = "" ∧
     (closeChartModal dt s).modalSubtitle = "") ∧
    (s.modalChart = none →
      closeChartModal dt s =
        { s with
            modalVisible := if domElem s "chart-modal" then false else s.modalVisible
            modalSourceCanvas := none
            modalTitle := ""
            modalSubtitle := "" }) ∧
    ((clearDetailCharts dt s).detailCharts = [] ∧
     ∀ r ∈ s.detailCharts, r < s.insts.length → dt r = false →
       (((clearDetailCharts dt s).insts.getD r default)).destroyed = true) := by
  refine ⟨?_, ?_, ?_, ?_⟩
  · by_cases hd : domElem s "chart-modal" <;>
      cases hm : s.modalChart with
    | none => simp [closeChartModal, hd, hm]
    | some m =>
      by_cases hdt : dt m <;>
        simp [closeChartModal, hd, hm, tryDestroy, destroyInst, modInstAt, hdt]
  · intro hm
    by_cases hd : domElem s "chart-modal" <;>
      simp [closeChartModal, hd, hm]
  · by_cases hdc :
      domElem ({ (s.detailCharts.foldl (fun s r => tryDestroy dt r s) s) with
                   detailCharts := ([] : List Nat) } : DashState) "detail-charts" <;>
      simp [clearDetailCharts, hdc, domWrite]
  · intro r hr hlen hdt
    have hkey := foldl_tryDestroy_destroys dt s.detailCharts s r hr hlen hdt
    by_cases hdc :
      domElem ({ (s.detailCharts.foldl (fun s r => tryDestroy dt r s) s) with
                   detailCharts := ([] : List Nat) } : DashState) "detail-charts" <;>
      simpa [clearDetailCharts, hdc, domWrite] using hkey

/-- Claim C8, witness: a concrete two-chart teardown in which the destroy
of chart 0 throws while chart 1 is still destroyed and the collection
emptied, plus a close with no mirror open. -/
theorem closeChartModal_clearDetailCharts_safe_witness :
    (clearDetailCharts (fun r => decide (r = 0))
        { emptyState with
            insts := [default, default], detailCharts := [0, 1] }).detailCharts = [] ∧
    (((clearDetailCharts (fun r => decide (r = 0))
        { emptyState with
            insts := [default, default], detailCharts := [0, 1] }).insts.getD 1
        default)).destroyed = true ∧
    closeChartModal (fun _ => true) emptyState =
      { emptyState with
          modalVisible := if domElem emptyState "chart-modal" then false
                          else emptyState.modalVisible } := by
  refine ⟨?_, ?_, ?_⟩
  · exact (closeChartModal_clearDetailCharts_safe (fun r => decide (r = 0))
      { emptyState with insts := [default, default], detailCharts := [0, 1] }).2.2.1
  · exact (closeChartModal_clearDetailCharts_safe (fun r => decide (r = 0))
      { emptyState with insts := [default, default], detailCharts := [0, 1] }).2.2.2
      1 (by decide) (by decide) (by decide)
  · exact (closeChartModal_clearDetailCharts_safe (fun _ => true) emptyState).2.1 rfl
/-! ## Claim C2: modal mirror independence -/

/-- The payload currently displayed by the open modal mirror: the
`chart.data` object reachable from `scalexModalChart`. -/
def modalPayload (s : DashState) : Option ChartData :=
  s.modalChart.map (chartDataAt s)

theorem getD_concat_length {α : Type} [Inhabited α] (l : List α) (a : α) :
    (l ++ [a]).getD l.length default = a := by
  rw [List.getD_eq_getElem?_getD, List.getElem?_concat_length]
  rfl

theorem getD_concat_lt {α : Type} [Inhabited α] (l : List α) (a : α)
    (i : Nat) (h : i < l.length) :
    (l ++ [a]).getD i default = l.getD i default := by
  rw [List.getD_eq_getElem?_getD, List.getElem?_append_left h,
    ← List.getD_eq_getElem?_getD]

theorem tryDestroy_dataRef (dt : Nat → Bool) (a r : Nat) (s : DashState) :
    ((tryDestroy dt a s).insts.getD r default).dataRef
      = (s.insts.getD r default).dataRef := by
  unfold tryDestroy destroyInst modInstAt
  split
  · rfl
  · by_cases hra : a = r
    · subst hra
      by_cases hlen : a < s.insts.length
      · rw [List.getD_eq_getElem?_getD, List.getElem?_set_self (by simpa using hlen)]
        rfl
      · rw [List.set_eq_of_length_le (by omega)]
    · rw [List.getD_eq_getElem?_getD, List.getElem?_set_ne hra,
        ← List.getD_eq_getElem?_getD]

theorem tryDestroy_dataRef_q (dt : Nat → Bool) (a r : Nat) (s : DashState) :
    (((tryDestroy dt a s).insts[r]?.getD default)).dataRef
      = ((s.insts[r]?.getD default)).dataRef := by
  have h := tryDestroy_dataRef dt a r s
  rwa [List.getD_eq_getElem?_getD, List.getD_eq_getElem?_getD] at h

theorem tryDestroy_fields (dt : Nat → Bool) (a : Nat) (s : DashState) :
    (tryDestroy dt a s).datas = s.datas ∧
    (tryDestroy dt a s).windowCharts = s.windowCharts ∧
    (tryDestroy dt a s).insts.length = s.insts.length := by
  unfold tryDestroy destroyInst modInstAt
  split <;> simp

/-- The structural content of `openChartModalFromCanvas`: when the modal
elements exist and the source canvas is registered, a mirror handle is
created whose `chart.data` reference is the source chart's own `dataRef`
(the aliasing induced by `data: baseConfig.data`); the data heap, the
window globals and the source instance's `dataRef` are untouched. -/
theorem openChartModal_shape (dt : Nat → Bool) (canvas pw ph : Nat)
    (s : DashState) (srcRef : Nat)
    (h1 : domElem s "chart-modal" = true)
    (h2 : domElem s "chart-modal-canvas" = true)
    (hreg : assocFindN s.registry canvas = some srcRef) :
    ∃ m, (openChartModalFromCanvas dt canvas pw ph s).modalChart = some m ∧
      ((openChartModalFromCanvas dt canvas pw ph s).insts.getD m default).dataRef
        = (s.insts.getD srcRef default).dataRef ∧
      (openChartModalFromCanvas dt canvas pw ph s).datas = s.datas ∧
      (openChartModalFromCanvas dt canvas pw ph s).windowCharts = s.windowCharts ∧
      (srcRef < s.insts.length →
        ((openChartModalFromCanvas dt canvas pw ph s).insts.getD srcRef default).dataRef
          = (s.insts.getD srcRef default).dataRef) := by
  unfold openChartModalFromCanvas
  simp only [h1, h2, Bool.and_self, Bool.not_true, Bool.false_eq_true,
    if_false, hreg]
  cases hm : s.modalChart with
  | none =>
    simp only [allocChartAliasing, domWrite]
    refine ⟨s.insts.length, ?_, ?_, ?_, ?_, ?_⟩
    · split <;> split <;> rfl
    · split <;> split <;>
        simp [getD_concat_length]
    · split <;> split <;> rfl
    · split <;> split <;> rfl
    · intro hlt
      split <;> split <;>
        rw [getD_concat_lt _ _ _ hlt]
  | some m0 =>
    simp only [allocChartAliasing, domWrite]
    have hf := tryDestroy_fields dt m0 s
    refine ⟨(tryDestroy dt m0 s).insts.length, ?_, ?_, ?_, ?_, ?_⟩
    · split <;> split <;> rfl
    · split <;> split <;>
        simp [getD_concat_length, tryDestroy_dataRef_q]
    · split <;> split <;> simp [hf.1]
    · split <;> split <;> simp [hf.2.1]
    · intro hlt
      have hlt2 : srcRef < (tryDestroy dt m0 s).insts.length := by
        rw [hf.2.2]; exact hlt
      split <;> split <;>
        rw [getD_concat_lt _ _ _ hlt2, tryDestroy_dataRef]
/-- Claim C2 (amended): opening the mirror creates an independent live
handle but takes the source chart's payload by reference, not by value
(`data: baseConfig.data`).  At open time the mirror displays the source's
payload; after a subsequent dispatch of a new payload into the source
chart the open mirror's displayed payload is the updated payload — it
does not stay at the value captured when the mirror was opened. -/
theorem modal_mirror_shares_source_payload (dt : Nat → Bool)
    (canvas pw ph : Nat) (s : DashState) (srcRef : Nat) (d : ApiData)
    (h1 : domElem s "chart-modal" = true)
    (h2 : domElem s "chart-modal-canvas" = true)
    (hreg : assocFindN s.registry canvas = some srcRef)
    (hwin : assocFind s.windowCharts "scalexCacTrendByChannelChart" = some srcRef)
    (hsrc : srcRef < s.insts.length)
    (hdr : (s.insts.getD srcRef default).dataRef < s.datas.length) :
    modalPayload (openChartModalFromCanvas dt canvas pw ph s)
      = some (chartDataAt (openChartModalFromCanvas dt canvas pw ph s) srcRef) ∧
    modalPayload
        (updateCacTrendByChannelFromAPI d (openChartModalFromCanvas dt canvas pw ph s))
      = some (multiSeriesData d
          (chartDataAt (openChartModalFromCanvas dt canvas pw ph s) srcRef)) := by
  obtain ⟨m, hmod, hmdr, hdatas, hwinc, hpres⟩ :=
    openChartModal_shape dt canvas pw ph s srcRef h1 h2 hreg
  set s1 := openChartModalFromCanvas dt canvas pw ph s with hs1
  have hsdr := hpres hsrc
  have e1 : chartDataAt s1 m = chartDataAt s1 srcRef := by
    unfold chartDataAt
    rw [hmdr, hsdr]
  constructor
  · rw [modalPayload, hmod, Option.map_some', e1]
  · unfold updateCacTrendByChannelFromAPI modChartData withWindowChart
    rw [hwinc, hwin]
    unfold modalPayload modChartDataAt setChartDataAt
    dsimp only
    rw [hmod, Option.map_some']
    unfold chartDataAt
    dsimp only
    rw [hmdr, hsdr]
    rw [List.getD_eq_getElem?_getD, List.getElem?_set_self ?hb]
    case hb =>
      rw [hdatas]
      exact hdr
    rfl
/-- A one-chart state for the modal-mirror scenarios: a live CAC-trend
chart on canvas 1, registered in `scalexChartRegistry` and exported as
`window.scalexCacTrendByChannelChart`, with the modal elements present. -/
def cacModalState : DashState :=
  { emptyState with
      datas := [{ labels := [.str "Jan"]
                  datasets := [{ label := some "Meta CAC"
                                 data := .nums [some 100]
                                 backgroundColor := .unset
                                 borderColor := .unset }] }]
      insts := [{ canvas := 1, dataRef := 0, destroyed := false
                  tooltipRevenueNew := none, tooltipRevenueRepeat := none
                  efficiencyIndex := none, currencyTag := none }]
      windowCharts := [("scalexCacTrendByChannelChart", 0)]
      registry := [(1, 0)]
      domPresent := ["chart-modal", "chart-modal-canvas"]
      modalCanvasRef := 9 }

/-- A fresh CAC payload (new labels and values), as raw API data. -/
def cacNewData : ApiData :=
  { ApiData.empty with
      labels := some ["Feb"]
      datasets := some [{ label := none, data := some [some 200], point := none }] }

/-- The successful response carrying `cacNewData`. -/
def cacNewResp : Response :=
  { success := some true, data := some cacNewData, error := none }

/-- Claim C2, counterexample: open the mirror for the CAC chart, then let
a background refresh dispatch a new payload into the source chart — the
open mirror's displayed payload changes, so no value copy was taken. -/
theorem modal_mirror_payload_not_value_copy :
    modalPayload
        ((renderChartFromAPI (fun _ => false) "perf_cac_trend_by_channel"
            (some cacNewResp)
            (openChartModalFromCanvas (fun _ => false) 1 800 500 cacModalState)).1)
      ≠ modalPayload (openChartModalFromCanvas (fun _ => false) 1 800 500
          cacModalState) := by
  decide

/-- Claim C2, witness for the amended theorem at the concrete one-chart
state. -/
theorem modal_mirror_shares_source_payload_witness :
    modalPayload (openChartModalFromCanvas (fun _ => false) 1 800 500 cacModalState)
      = some (chartDataAt
          (openChartModalFromCanvas (fun _ => false) 1 800 500 cacModalState) 0) ∧
    modalPayload
        (updateCacTrendByChannelFromAPI cacNewData
          (openChartModalFromCanvas (fun _ => false) 1 800 500 cacModalState))
      = some (multiSeriesData cacNewData
          (chartDataAt
            (openChartModalFromCanvas (fun _ => false) 1 800 500 cacModalState) 0)) :=
  modal_mirror_shares_source_payload (fun _ => false) 1 800 500 cacModalState 0
    cacNewData (by decide) (by decide) (by decide) (by decide) (by decide)
    (by decide)
/-! ## Claim C1: the (absent) stale-response guard -/

/-- Claim C1, counterexample: the active page switches from
`performance-overview` to `channel-campaign-analytics` while the
`perf_cac_trend_by_channel` fetch of the abandoned page is still in
flight (the new page's own fetches all fail, so the refresh settles
first); when the late response then arrives, dispatching it is not a
no-op — the abandoned page's chart state is mutated.  No page-generation
counter exists anywhere in the code. -/
theorem stale_response_applied :
    "perf_cac_trend_by_channel" ∈ getChartsForPage "performance-overview" ∧
    (refreshPage (fun _ => NetResult.thrown "network unreachable")
        (fun _ => false) "channel-campaign-analytics" cacModalState).1.currentPage
      = "channel-campaign-analytics" ∧
    (renderChartFromAPI (fun _ => false) "perf_cac_trend_by_channel"
        (some cacNewResp)
        (refreshPage (fun _ => NetResult.thrown "network unreachable")
          (fun _ => false) "channel-campaign-analytics" cacModalState).1).1
      ≠ (refreshPage (fun _ => NetResult.thrown "network unreachable")
          (fun _ => false) "channel-campaign-analytics" cacModalState).1 := by
  refine ⟨by decide, by decide, by decide⟩

theorem modChartData_setPage (name : String) (f : ChartData → ChartData)
    (p : String) (s : DashState) :
    modChartData name f (setActivePage p s)
      = setActivePage p (modChartData name f s) := by
  unfold modChartData withWindowChart modChartDataAt setChartDataAt chartDataAt
    setActivePage
  dsimp only
  cases assocFind s.windowCharts name <;> rfl

theorem updateSpendEff_setPage (d : ApiData) (p : String) (s : DashState) :
    updateChannelSpendEfficiencyFromAPI d (setActivePage p s)
      = setActivePage p (updateChannelSpendEfficiencyFromAPI d s) := by
  unfold updateChannelSpendEfficiencyFromAPI withWindowChart modChartDataAt
    setChartDataAt chartDataAt modInstAt setActivePage
  dsimp only
  cases assocFind s.windowCharts "scalexSpendEfficiencyChart" <;> rfl

theorem updateNewVsRepeat_setPage (d : ApiData) (p : String) (s : DashState) :
    updateNewVsRepeatMixFromAPI d (setActivePage p s)
      = (setActivePage p (updateNewVsRepeatMixFromAPI d s).1,
         (updateNewVsRepeatMixFromAPI d s).2) := by
  unfold updateNewVsRepeatMixFromAPI setChartDataAt chartDataAt modInstAt
    setActivePage
  dsimp only
  cases assocFind s.windowCharts "scalexNewVsRepeatMixChart" with
  | none => rfl
  | some r =>
    dsimp only
    repeat first | rfl | (split <;> (try dsimp only))

theorem updateLeadQuality_setPage (d : ApiData) (p : String) (s : DashState) :
    updateChannelLeadQualityFromAPI d (setActivePage p s)
      = (setActivePage p (updateChannelLeadQualityFromAPI d s).1,
         (updateChannelLeadQualityFromAPI d s).2) := by
  unfold updateChannelLeadQualityFromAPI setChartDataAt chartDataAt
    setActivePage
  dsimp only
  cases assocFind s.windowCharts "scalexLeadQualityChart" with
  | none => rfl
  | some r =>
    dsimp only
    repeat first | rfl | (split <;> (try dsimp only))

theorem updateBubble_setPage (d : ApiData) (p : String) (s : DashState) :
    updateCampaignRoiBubbleFromAPI d (setActivePage p s)
      = (setActivePage p (updateCampaignRoiBubbleFromAPI d s).1,
         (updateCampaignRoiBubbleFromAPI d s).2) := by
  unfold updateCampaignRoiBubbleFromAPI assignSeries modChartDataAt
    setChartDataAt chartDataAt modInstAt setActivePage
  dsimp only
  cases assocFind s.windowCharts "scalexCampaignRoiBubbleChart" with
  | none => rfl
  | some r =>
    dsimp only
    repeat first | rfl | (split <;> (try dsimp only))

theorem applyDomWrites_setPage (ws : List (String × DomVal)) (p : String) :
    ∀ s : DashState, applyDomWrites ws (setActivePage p s)
      = setActivePage p (applyDomWrites ws s) := by
  induction ws with
  | nil => intro s; rfl
  | cons w tl ih =>
    intro s
    show applyDomWrites tl (domWrite w.1 w.2 (setActivePage p s))
      = setActivePage p (applyDomWrites tl (domWrite w.1 w.2 s))
    rw [show domWrite w.1 w.2 (setActivePage p s)
        = setActivePage p (domWrite w.1 w.2 s) from rfl]
    exact ih (domWrite w.1 w.2 s)

theorem updateLtv_setPage (d : ApiData) (p : String) (s : DashState) :
    updateLtvCacRatioFromAPI d (setActivePage p s)
      = (setActivePage p (updateLtvCacRatioFromAPI d s).1,
         (updateLtvCacRatioFromAPI d s).2) := by
  unfold updateLtvCacRatioFromAPI
  have hd : ∀ k, domElem (setActivePage p s) k = domElem s k := fun _ => rfl
  simp only [hd]
  split
  · rfl
  · rw [applyDomWrites_setPage]
theorem domElem_setPage (p : String) (s : DashState) (k : String) :
    domElem (setActivePage p s) k = domElem s k := rfl

theorem updateAlert_setPage (cardId cardLabel : String) (d : ApiData)
    (p : String) (s : DashState) :
    updateSmartAlertCard cardId cardLabel d (setActivePage p s)
      = setActivePage p (updateSmartAlertCard cardId cardLabel d s) := by
  unfold updateSmartAlertCard
  simp only [domElem_setPage]
  split
  · rfl
  · split <;> rfl

theorem updateTile_setPage (key kind : String) (m : TileMetric)
    (p : String) (s : DashState) :
    updateTile key kind m (setActivePage p s)
      = setActivePage p (updateTile key kind m s) := by
  unfold updateTile
  simp only [domElem_setPage]
  split
  · rfl
  · split <;> rfl

theorem updateTiles_setPage (d : ApiData) (p : String) (s : DashState) :
    updateCreativePerfTilesFromAPI d (setActivePage p s)
      = setActivePage p (updateCreativePerfTilesFromAPI d s) := by
  unfold updateCreativePerfTilesFromAPI
  simp only [domElem_setPage]
  cases d.ctr with
  | none => rfl
  | some mCtr =>
    cases d.cpc with
    | none => rfl
    | some mCpc =>
      cases d.engagement with
      | none => rfl
      | some mEng =>
        dsimp only
        split
        · rfl
        · rw [updateTile_setPage, updateTile_setPage, updateTile_setPage]

theorem updateTable_setPage (d : ApiData) (p : String) (s : DashState) :
    updateChannelSnapshotTableFromAPI d (setActivePage p s)
      = setActivePage p (updateChannelSnapshotTableFromAPI d s) := by
  unfold updateChannelSnapshotTableFromAPI
  simp only [domElem_setPage]
  cases d.rows with
  | none => rfl
  | some rows =>
    dsimp only
    split
    · rfl
    · split <;> rfl

theorem renderKPISparkline_setPage (dt : Nat → Bool) (cp : Bool)
    (values : Option (List Rat)) (stroke fill key : String) (p : String)
    (s : DashState) :
    renderKPISparkline dt cp values stroke fill key (setActivePage p s)
      = setActivePage p (renderKPISparkline dt cp values stroke fill key s) := by
  unfold renderKPISparkline tryDestroy destroyInst modInstAt allocChart
    assocDrop setActivePage
  dsimp only
  repeat first | rfl | (split <;> (try dsimp only))

theorem updateKpiCards_setPage (dt : Nat → Bool) (d : ApiData)
    (currId prevId changeId canvasId kpiType : String) (p : String)
    (s : DashState) :
    updateKpiCards dt d currId prevId changeId canvasId kpiType
        (setActivePage p s)
      = setActivePage p
          (updateKpiCards dt d currId prevId changeId canvasId kpiType s) := by
  unfold updateKpiCards
  simp only [domElem_setPage]
  cases kpiConfig kpiType with
  | none => rfl
  | some cfg =>
    dsimp only
    rw [applyDomWrites_setPage]
    cases d.sparkline with
    | none => rfl
    | some vals =>
      dsimp only
      split
      · rw [domElem_setPage, renderKPISparkline_setPage]
      · rfl
/-- Claim C1 (amended): there is no stale-response guard — no page
generation is recorded anywhere, and `renderChartFromAPI` never consults
the active page.  A response that arrives after the active page has
switched is therefore applied exactly as it would have been before the
switch: dispatching on the page-switched state equals switching the page
of the dispatched state, with the same error outcome, for every
identifier, response, destroy oracle and state. -/
theorem pureH_setPage (f : DashState → DashState) (p : String)
    (s : DashState) (hf : f (setActivePage p s) = setActivePage p (f s)) :
    pureH f (setActivePage p s)
      = (setActivePage p (pureH f s).1, (pureH f s).2) := by
  unfold pureH
  rw [hf]

theorem renderChartFromAPI_ignores_page (dt : Nat → Bool) (chartId : String)
    (response : Option Response) (p : String) (s : DashState) :
    renderChartFromAPI dt chartId response (setActivePage p s)
      = (setActivePage p (renderChartFromAPI dt chartId response s).1,
         (renderChartFromAPI dt chartId response s).2) := by
  have hd : ∀ (d : ApiData),
      dispatchHandler dt chartId d (setActivePage p s)
        = (setActivePage p (dispatchHandler dt chartId d s).1,
           (dispatchHandler dt chartId d s).2) := by
    intro d
    unfold dispatchHandler
    by_cases h1 : chartId = "kpi_revenue"
    · rw [if_pos h1]
      exact pureH_setPage _ p s (updateKpiCards_setPage _ _ _ _ _ _ _ p s)
    rw [if_neg h1]
    by_cases h2 : chartId = "kpi_ad_spend"
    · rw [if_pos h2]
      exact pureH_setPage _ p s (updateKpiCards_setPage _ _ _ _ _ _ _ p s)
    rw [if_neg h2]
    by_cases h3 : chartId = "kpi_roas"
    · rw [if_pos h3]
      exact pureH_setPage _ p s (updateKpiCards_setPage _ _ _ _ _ _ _ p s)
    rw [if_neg h3]
    by_cases h4 : chartId = "kpi_roi"
    · rw [if_pos h4]
      exact pureH_setPage _ p s (updateKpiCards_setPage _ _ _ _ _ _ _ p s)
    rw [if_neg h4]
    by_cases h5 : chartId = "alert_performance_gain"
    · rw [if_pos h5]
      exact pureH_setPage _ p s (updateAlert_setPage _ _ _ p s)
    rw [if_neg h5]
    by_cases h6 : chartId = "alert_channel_mix"
    · rw [if_pos h6]
      exact pureH_setPage _ p s (updateAlert_setPage _ _ _ p s)
    rw [if_neg h6]
    by_cases h7 : chartId = "alert_budget_reallocation"
    · rw [if_pos h7]
      exact pureH_setPage _ p s (updateAlert_setPage _ _ _ p s)
    rw [if_neg h7]
    by_cases h8 : chartId = "perf_funnel_by_channel"
    · rw [if_pos h8]
      exact pureH_setPage _ p s (modChartData_setPage _ _ p s)
    rw [if_neg h8]
    by_cases h9 : chartId = "perf_cac_blended_vs_paid"
    · rw [if_pos h9]
      exact pureH_setPage _ p s (modChartData_setPage _ _ p s)
    rw [if_neg h9]
    by_cases h10 : chartId = "perf_cac_trend_by_channel"
    · rw [if_pos h10]
      exact pureH_setPage _ p s (modChartData_setPage _ _ p s)
    rw [if_neg h10]
    by_cases h11 : chartId = "perf_paid_roi_by_stage"
    · rw [if_pos h11]
      exact pureH_setPage _ p s (modChartData_setPage _ _ p s)
    rw [if_neg h11]
    by_cases h12 : chartId = "perf_pipeline_value"
    · rw [if_pos h12]
      exact pureH_setPage _ p s (modChartData_setPage _ _ p s)
    rw [if_neg h12]
    by_cases h13 : chartId = "perf_ltv_cac_ratio"
    · rw [if_pos h13]
      exact updateLtv_setPage _ p s
    rw [if_neg h13]
    by_cases h14 : chartId = "perf_ltv_by_cohort"
    · rw [if_pos h14]
      exact pureH_setPage _ p s (modChartData_setPage _ _ p s)
    rw [if_neg h14]
    by_cases h15 : chartId = "perf_attribution_accuracy"
    · rw [if_pos h15]
      exact pureH_setPage _ p s (modChartData_setPage _ _ p s)
    rw [if_neg h15]
    by_cases h16 : chartId = "perf_top_channels_roas"
    · rw [if_pos h16]
      exact pureH_setPage _ p s (modChartData_setPage _ _ p s)
    rw [if_neg h16]
    by_cases h17 : chartId = "perf_new_vs_repeat_mix"
    · rw [if_pos h17]
      exact updateNewVsRepeat_setPage _ p s
    rw [if_neg h17]
    by_cases h18 : chartId = "channel_cpl_cac_roas"
    · rw [if_pos h18]
      exact pureH_setPage _ p s (modChartData_setPage _ _ p s)
    rw [if_neg h18]
    by_cases h19 : chartId = "campaign_roi_bubble"
    · rw [if_pos h19]
      exact updateBubble_setPage _ p s
    rw [if_neg h19]
    by_cases h20 : chartId = "channel_touchpoint_split"
    · rw [if_pos h20]
      exact pureH_setPage _ p s (modChartData_setPage _ _ p s)
    rw [if_neg h20]
    by_cases h21 : chartId = "audience_roas"
    · rw [if_pos h21]
      exact pureH_setPage _ p s (modChartData_setPage _ _ p s)
    rw [if_neg h21]
    by_cases h22 : chartId = "channel_lead_quality"
    · rw [if_pos h22]
      exact updateLeadQuality_setPage _ p s
    rw [if_neg h22]
    by_cases h23 : chartId = "channel_spend_efficiency"
    · rw [if_pos h23]
      exact pureH_setPage _ p s (updateSpendEff_setPage _ p s)
    rw [if_neg h23]
    by_cases h24 : chartId = "creative_perf_tiles"
    · rw [if_pos h24]
      exact pureH_setPage _ p s (updateTiles_setPage _ p s)
    rw [if_neg h24]
    by_cases h25 : chartId = "channel_snapshot_table"
    · rw [if_pos h25]
      exact pureH_setPage _ p s (updateTable_setPage _ p s)
    rw [if_neg h25]
  cases response with
  | none => rfl
  | some resp =>
    unfold renderChartFromAPI
    dsimp only
    by_cases hs : resp.success = some false
    · rw [if_pos hs, if_pos hs]
    · rw [if_neg hs, if_neg hs]
      exact hd _
/-! ## Claim C5: in-place update vs destroy-and-recreate -/

theorem assocFind_assocSet_self {α : Type} (l : List (String × α))
    (k : String) (v : α) : assocFind (assocSet l k v) k = some v := by
  unfold assocSet assocFind
  simp

theorem modChartData_insts (name : String) (f : ChartData → ChartData)
    (s : DashState) : (modChartData name f s).insts = s.insts := by
  unfold modChartData withWindowChart modChartDataAt setChartDataAt
  cases assocFind s.windowCharts name <;> rfl

theorem modChartData_windowCharts (name : String) (f : ChartData → ChartData)
    (s : DashState) : (modChartData name f s).windowCharts = s.windowCharts := by
  unfold modChartData withWindowChart modChartDataAt setChartDataAt
  cases assocFind s.windowCharts name <;> rfl

theorem modChartData_read (name : String) (f : ChartData → ChartData)
    (s : DashState) (r : Nat)
    (h : assocFind s.windowCharts name = some r)
    (hdr : (s.insts.getD r default).dataRef < s.datas.length) :
    chartDataOfName (modChartData name f s) name
      = some (f (chartDataAt s r)) := by
  unfold chartDataOfName
  rw [modChartData_windowCharts, h, Option.map_some']
  unfold modChartData withWindowChart
  rw [h]
  unfold modChartDataAt setChartDataAt chartDataAt
  dsimp only
  rw [List.getD_eq_getElem?_getD, List.getElem?_set_self (by simpa using hdr)]
  rfl

/-- A concrete state holding a cached KPI revenue sparkline chart
(instance 0) with its canvas present in the document. -/
def kpiSparkState : DashState :=
  { emptyState with
      datas := [{ labels := [.num 1, .num 2]
                  datasets := [{ label := none, data := .nums [some 5, some 6]
                                 backgroundColor := .single "rgba(34,197,94,0.12)"
                                 borderColor := .single "#22C55E" }] }]
      insts := [{ canvas := 0, dataRef := 0, destroyed := false
                  tooltipRevenueNew := none, tooltipRevenueRepeat := none
                  efficiencyIndex := none, currencyTag := none }]
      kpiCharts := [("revenue", 0)]
      domPresent := ["rev-chart"] }

/-- A KPI revenue payload carrying a new sparkline. -/
def kpiSparkResp : Response :=
  { success := some true
    data := some { ApiData.empty with sparkline := some [1, 2, 3] }
    error := none }

/-- Claim C5, counterexample: the `kpi_revenue` identifier already has a
live chart (instance 0 cached in `SCALEX_KPI_CHARTS`), yet dispatching a
new payload destroys that handle and creates a fresh one (instance 1)
instead of updating in place. -/
theorem kpi_sparkline_destroys_and_recreates :
    assocFind kpiSparkState.kpiCharts "revenue" = some 0 ∧
    (((renderChartFromAPI (fun _ => false) "kpi_revenue" (some kpiSparkResp)
        kpiSparkState).1).insts.getD 0 default).destroyed = true ∧
    assocFind ((renderChartFromAPI (fun _ => false) "kpi_revenue"
        (some kpiSparkResp) kpiSparkState).1).kpiCharts "revenue" = some 1 := by
  refine ⟨by decide, by decide, by decide⟩

theorem applyDomWrites_frame (ws : List (String × DomVal)) :
    ∀ s : DashState,
      applyDomWrites ws s = { s with dom := (applyDomWrites ws s).dom } := by
  induction ws with
  | nil => intro s; rfl
  | cons w tl ih =>
    intro s
    show applyDomWrites tl (domWrite w.1 w.2 s) = _
    rw [ih (domWrite w.1 w.2 s)]
    rfl

theorem renderKPISparkline_recreates (dt : Nat → Bool) (vals : List Rat)
    (stroke fill : String) (s : DashState) (r : Nat)
    (hk : assocFind s.kpiCharts "revenue" = some r)
    (hlen : r < s.insts.length)
    (hnz : vals.length ≠ 0) (hdt : dt r = false) :
    assocFind (renderKPISparkline dt true (some vals) stroke fill "revenue"
        s).kpiCharts "revenue" = some s.insts.length ∧
    (((renderKPISparkline dt true (some vals) stroke fill "revenue"
        s).insts.getD r default)).destroyed = true := by
  unfold renderKPISparkline tryDestroy
  simp only [Bool.not_true, Bool.false_eq_true, if_false]
  rw [if_neg hnz]
  simp only [if_pos (show ("revenue" : String) ≠ "" by decide)]
  rw [hk]
  dsimp only
  rw [hdt]
  simp only [Bool.false_eq_true, if_false]
  unfold allocChart destroyInst modInstAt
  dsimp only
  constructor
  · rw [assocFind_assocSet_self, List.length_set]
  · rw [getD_concat_lt _ _ _ (by rw [List.length_set]; exact hlen)]
    rw [List.getD_eq_getElem?_getD, List.getElem?_set_self (by simpa using hlen)]
    rfl

/-- Claim C5 (amended): the detail-chart handlers (here the cited CAC-trend
handler) do update in place — the instance heap is untouched, the window
global still holds the same handle, and that handle's payload is replaced
by the incoming one; the KPI sparklines however are destroyed and
recreated on every update after the first: the cached handle is destroyed
and a fresh instance takes its place in the cache. -/
theorem update_in_place_except_kpi (dt : Nat → Bool) (d : ApiData)
    (vals : List Rat) (s : DashState) (r : Nat) :
    ((assocFind s.windowCharts "scalexCacTrendByChannelChart" = some r →
      (s.insts.getD r default).dataRef < s.datas.length →
      (updateCacTrendByChannelFromAPI d s).insts = s.insts ∧
      assocFind (updateCacTrendByChannelFromAPI d s).windowCharts
          "scalexCacTrendByChannelChart" = some r ∧
      chartDataOfName (updateCacTrendByChannelFromAPI d s)
          "scalexCacTrendByChannelChart"
        = some (multiSeriesData d (chartDataAt s r)))) ∧
    (assocFind s.kpiCharts "revenue" = some r → r < s.insts.length →
      d.sparkline = some vals → vals.length ≠ 0 →
      domElem s "rev-chart" = true → dt r = false →
      (assocFind (updateKpiCards dt d "rev-current" "rev-prev" "rev-change"
          "rev-chart" "revenue" s).kpiCharts "revenue" = some s.insts.length ∧
       r ≠ s.insts.length ∧
       ((updateKpiCards dt d "rev-current" "rev-prev" "rev-change" "rev-chart"
          "revenue" s).insts.getD r default).destroyed = true)) := by
  constructor
  · intro h hdr
    refine ⟨modChartData_insts _ _ _, ?_, modChartData_read _ _ _ _ h hdr⟩
    have hw : (updateCacTrendByChannelFromAPI d s).windowCharts
        = s.windowCharts := modChartData_windowCharts _ _ _
    rw [hw]
    exact h
  · intro hk hlen hsp hnz hcv hdt
    have hcfg : kpiConfig "revenue"
        = some ⟨"₹ ", "", "Prev: ₹ ", false, "number", "#22C55E",
            "rgba(34,197,94,0.12)"⟩ := rfl
    unfold updateKpiCards
    rw [hcfg]
    dsimp only
    rw [applyDomWrites_frame, hsp]
    dsimp only
    rw [if_pos hnz]
    simp only [show ∀ dom', domElem { s with dom := dom' } "rev-chart"
      = domElem s "rev-chart" from fun _ => rfl]
    rw [hcv]
    have key : ∀ dom' : List (String × DomVal),
        assocFind (renderKPISparkline dt true (some vals) "#22C55E"
            "rgba(34,197,94,0.12)" "revenue" { s with dom := dom' }).kpiCharts
          "revenue" = some s.insts.length ∧
        ((renderKPISparkline dt true (some vals) "#22C55E"
            "rgba(34,197,94,0.12)" "revenue"
            { s with dom := dom' }).insts.getD r default).destroyed = true := by
      intro dom'
      exact renderKPISparkline_recreates dt vals "#22C55E"
        "rgba(34,197,94,0.12)" { s with dom := dom' } r hk hlen hnz hdt
    exact ⟨(key _).1, Nat.ne_of_lt hlen, (key _).2⟩

/-- A concrete payload carrying a sparkline, for the C5 witness. -/
def c5Data : ApiData :=
  { ApiData.empty with sparkline := some [1, 2, 3] }

/-- A concrete state exposing both a registered CAC-trend detail chart and
a cached KPI revenue sparkline, both at instance 0. -/
def c5State : DashState :=
  { kpiSparkState with windowCharts := [("scalexCacTrendByChannelChart", 0)] }

/-- Claim C5, witness for the amended theorem: on a concrete state the
CAC-trend handler keeps the instance heap and the registered handle while
replacing its payload, and the KPI handler destroys instance 0 and caches
the fresh instance 1. -/
theorem update_in_place_except_kpi_witness :
    (updateCacTrendByChannelFromAPI c5Data c5State).insts = c5State.insts ∧
    assocFind (updateCacTrendByChannelFromAPI c5Data c5State).windowCharts
        "scalexCacTrendByChannelChart" = some 0 ∧
    chartDataOfName (updateCacTrendByChannelFromAPI c5Data c5State)
        "scalexCacTrendByChannelChart"
      = some (multiSeriesData c5Data (chartDataAt c5State 0)) ∧
    assocFind (updateKpiCards (fun _ => false) c5Data "rev-current"
        "rev-prev" "rev-change" "rev-chart" "revenue" c5State).kpiCharts
        "revenue" = some c5State.insts.length ∧
    ((updateKpiCards (fun _ => false) c5Data "rev-current" "rev-prev"
        "rev-change" "rev-chart" "revenue" c5State).insts.getD 0
        default).destroyed = true := by
  obtain ⟨h1, h2⟩ := update_in_place_except_kpi (fun _ => false) c5Data
    [1, 2, 3] c5State 0
  obtain ⟨a1, a2, a3⟩ := h1 (by decide) (by decide)
  obtain ⟨b1, _, b3⟩ := h2 (by decide) (by decide) rfl (by decide)
    (by decide) rfl
  exact ⟨a1, a2, a3, b1, b3⟩

theorem setDataList_nil_right (vs : List (Option SeriesData)) :
    setDataList vs [] = [] := by
  cases vs <;> rfl

theorem setDataList_override (vs : List (Option SeriesData)) :
    ∀ (ws : List (Option SeriesData)) (ds : List DataSeries),
      ds.length ≤ vs.length → (∀ v ∈ vs, v.isSome) →
      setDataList vs (setDataList ws ds) = setDataList vs ds := by
  induction vs with
  | nil =>
    intro ws ds h _
    have hds : ds = [] := List.eq_nil_of_length_eq_zero (Nat.le_zero.mp h)
    subst hds
    rw [setDataList_nil_right]
  | cons v vs ih =>
    intro ws ds h hsome
    cases ds with
    | nil => rw [setDataList_nil_right]
    | cons d tl =>
      obtain ⟨sd, rfl⟩ : ∃ sd, v = some sd := by
        have hv := hsome v (by simp)
        cases v with
        | none => simp at hv
        | some sd => exact ⟨sd, rfl⟩
      have htl : tl.length ≤ vs.length := by
        simpa using Nat.succ_le_succ_iff.mp (by simpa using h)
      have hs' : ∀ x ∈ vs, x.isSome := fun x hx => hsome x (by simp [hx])
      cases ws with
      | nil => rfl
      | cons w ws' =>
        cases w with
        | none => simp [setDataList, ih ws' tl htl hs']
        | some sd' => simp [setDataList, ih ws' tl htl hs']

theorem multiSeriesData_override (d1 d2 : ApiData) (c : ChartData)
    (hcov : c.datasets.length ≤ (d2.datasets.getD []).length) :
    multiSeriesData d2 (multiSeriesData d1 c) = multiSeriesData d2 c := by
  unfold multiSeriesData
  dsimp only
  congr 1
  refine setDataList_override _ _ _ (by simpa using hcov) ?_
  intro v hv
  obtain ⟨rd, -, rfl⟩ := List.mem_map.mp hv
  rfl

theorem modChartData_datas_length (name : String) (f : ChartData → ChartData)
    (s : DashState) : (modChartData name f s).datas.length = s.datas.length := by
  unfold modChartData withWindowChart modChartDataAt setChartDataAt
  cases assocFind s.windowCharts name <;> simp

theorem modChartData_registry (name : String) (f : ChartData → ChartData)
    (s : DashState) : (modChartData name f s).registry = s.registry := by
  unfold modChartData withWindowChart modChartDataAt setChartDataAt
  cases assocFind s.windowCharts name <;> rfl

theorem modChartData_chartDataAt (name : String) (f : ChartData → ChartData)
    (s : DashState) (r : Nat)
    (h : assocFind s.windowCharts name = some r)
    (hdr : (s.insts.getD r default).dataRef < s.datas.length) :
    chartDataAt (modChartData name f s) r = f (chartDataAt s r) := by
  unfold modChartData withWindowChart
  rw [h]
  unfold modChartDataAt setChartDataAt chartDataAt
  dsimp only
  rw [List.getD_eq_getElem?_getD, List.getElem?_set_self (by simpa using hdr)]
  rfl

/-- Claim C6 (amended): two successive dispatches to the same registered
chart keep exactly the original single handle — instance heap, window
global and canvas registry are all unchanged — and, provided the second
payload supplies at least as many datasets as the chart has, the final
payload is determined by the second payload alone: it equals the
normalization of `d2` against the original chart, i.e. the same payload a
single dispatch of `d2` would have produced.  (Without that coverage
hypothesis the first payload's data survives in the uncovered dataset
slots, as the counterexample shows.) -/
theorem upsert_twice_last_write_wins (d1 d2 : ApiData) (s : DashState)
    (r : Nat)
    (h : assocFind s.windowCharts "scalexCacTrendByChannelChart" = some r)
    (hdr : (s.insts.getD r default).dataRef < s.datas.length)
    (hcov : (chartDataAt s r).datasets.length ≤ (d2.datasets.getD []).length) :
    (updateCacTrendByChannelFromAPI d2
        (updateCacTrendByChannelFromAPI d1 s)).insts = s.insts ∧
    (updateCacTrendByChannelFromAPI d2
        (updateCacTrendByChannelFromAPI d1 s)).windowCharts = s.windowCharts ∧
    (updateCacTrendByChannelFromAPI d2
        (updateCacTrendByChannelFromAPI d1 s)).registry = s.registry ∧
    chartDataOfName (updateCacTrendByChannelFromAPI d2
        (updateCacTrendByChannelFromAPI d1 s)) "scalexCacTrendByChannelChart"
      = some (multiSeriesData d2 (chartDataAt s r)) ∧
    chartDataOfName (updateCacTrendByChannelFromAPI d2
        (updateCacTrendByChannelFromAPI d1 s)) "scalexCacTrendByChannelChart"
      = chartDataOfName (updateCacTrendByChannelFromAPI d2 s)
          "scalexCacTrendByChannelChart" := by
  have e1 : updateCacTrendByChannelFromAPI d1
      = modChartData "scalexCacTrendByChannelChart" (multiSeriesData d1) := rfl
  have e2 : updateCacTrendByChannelFromAPI d2
      = modChartData "scalexCacTrendByChannelChart" (multiSeriesData d2) := rfl
  rw [e1, e2]
  have h1 : assocFind (modChartData "scalexCacTrendByChannelChart"
        (multiSeriesData d1) s).windowCharts "scalexCacTrendByChannelChart"
      = some r := by
    rw [modChartData_windowCharts]; exact h
  have hdr1 : ((modChartData "scalexCacTrendByChannelChart"
          (multiSeriesData d1) s).insts.getD r default).dataRef
      < (modChartData "scalexCacTrendByChannelChart"
          (multiSeriesData d1) s).datas.length := by
    rw [modChartData_insts, modChartData_datas_length]; exact hdr
  refine ⟨?_, ?_, ?_, ?_, ?_⟩
  · rw [modChartData_insts, modChartData_insts]
  · rw [modChartData_windowCharts, modChartData_windowCharts]
  · rw [modChartData_registry, modChartData_registry]
  · rw [modChartData_read _ _ _ _ h1 hdr1,
        modChartData_chartDataAt _ _ _ _ h hdr,
        multiSeriesData_override d1 d2 _ hcov]
  · rw [modChartData_read _ _ _ _ h1 hdr1,
        modChartData_read _ _ _ _ h hdr,
        modChartData_chartDataAt _ _ _ _ h hdr,
        multiSeriesData_override d1 d2 _ hcov]

/-- A dashboard state with a single registered CAC-trend-by-channel chart
(instance 0) holding one dataset. -/
def c6State : DashState :=
  { emptyState with
      datas := [{ labels := [.str "Jan"]
                  datasets := [{ label := some "Meta", data := .nums [some 0]
                                 backgroundColor := .single "#000000"
                                 borderColor := .single "#000000" }] }]
      insts := [{ canvas := 0, dataRef := 0, destroyed := false
                  tooltipRevenueNew := none, tooltipRevenueRepeat := none
                  efficiencyIndex := none, currencyTag := none }]
      windowCharts := [("scalexCacTrendByChannelChart", 0)] }

/-- A first payload writing `1` into dataset 0. -/
def c6p1 : ApiData :=
  { ApiData.empty with
      labels := some ["Jan"]
      datasets := some [{ label := some "Meta", data := some [some 1]
                          point := none }] }

/-- An alternative first payload writing `2` into dataset 0. -/
def c6p1' : ApiData :=
  { ApiData.empty with
      labels := some ["Jan"]
      datasets := some [{ label := some "Meta", data := some [some 2]
                          point := none }] }

/-- A second payload carrying labels but no datasets. -/
def c6p2 : ApiData :=
  { ApiData.empty with labels := some ["Feb"] }

/-- Claim C6, counterexample: dispatching a first payload and then `c6p2`
does not leave the chart with a payload equal to (a function of) the
second payload — the surviving dataset data still depends on which first
payload was sent, so `currentPayload == p2` fails. -/
theorem upsert_twice_payload_depends_on_first :
    chartDataOfName (updateCacTrendByChannelFromAPI c6p2
        (updateCacTrendByChannelFromAPI c6p1 c6State))
        "scalexCacTrendByChannelChart"
      ≠ chartDataOfName (updateCacTrendByChannelFromAPI c6p2
        (updateCacTrendByChannelFromAPI c6p1' c6State))
        "scalexCacTrendByChannelChart" := by
  decide

/-- Claim C6, witness for the amended theorem at a concrete one-chart
state with a covering second payload. -/
theorem upsert_twice_last_write_wins_witness :
    (updateCacTrendByChannelFromAPI c6p1'
        (updateCacTrendByChannelFromAPI c6p1 c6State)).windowCharts
      = c6State.windowCharts ∧
    chartDataOfName (updateCacTrendByChannelFromAPI c6p1'
        (updateCacTrendByChannelFromAPI c6p1 c6State))
        "scalexCacTrendByChannelChart"
      = some (multiSeriesData c6p1' (chartDataAt c6State 0)) := by
  obtain ⟨-, h2, -, h4, -⟩ := upsert_twice_last_write_wins c6p1 c6p1' c6State 0
    (by decide) (by decide) (by decide)
  exact ⟨h2, h4⟩

/-- A network interaction that did not produce a parsed 2xx body: the
fetch threw, the response was not `ok`, or `response.json()` failed. -/
def isFetchFailure : NetResult → Bool
  | .thrown _ => true
  | .response ok _ body => !ok || body.isNone

/-- The settled fetch results of a page refresh, restricted to those the
dispatcher will actually apply (everything except `success === false`
objects, which is what every fetch failure is converted into). -/
def successResults (net : String → NetResult) (page : String) :
    List (String × Response) :=
  ((getChartsForPage page).map (fun id => (id, fetchChartData net id))).filter
    (fun p => p.2.success != some false)

theorem renderChartFromAPI_failure_skipped (dt : Nat → Bool) (id : String)
    (r : Response) (s : DashState) (h : r.success = some false) :
    renderChartFromAPI dt id (some r) s = (s, none) := by
  unfold renderChartFromAPI
  dsimp only
  rw [if_pos h]

theorem runDispatchList_filter_failures (dt : Nat → Bool) :
    ∀ (l : List (String × Response)) (s : DashState),
      runDispatchList dt l s
        = runDispatchList dt
            (l.filter (fun p => p.2.success != some false)) s := by
  intro l
  induction l with
  | nil => intro s; rfl
  | cons p tl ih =>
    intro s
    obtain ⟨id, r⟩ := p
    by_cases h : r.success = some false
    · have hp : List.filter (fun p => p.2.success != some false) ((id, r) :: tl)
          = List.filter (fun p => p.2.success != some false) tl := by
        simp [List.filter_cons, h]
      rw [hp]
      show (match renderChartFromAPI dt id (some r) s with
            | (s1, none) => runDispatchList dt tl s1
            | (s1, some e) => (s1, some e))
          = runDispatchList dt
              (List.filter (fun p => p.2.success != some false) tl) s
      rw [renderChartFromAPI_failure_skipped dt id r s h]
      exact ih s
    · have hp : List.filter (fun p => p.2.success != some false) ((id, r) :: tl)
          = (id, r) :: List.filter (fun p => p.2.success != some false) tl := by
        simp [List.filter_cons, h]
      rw [hp]
      show (match renderChartFromAPI dt id (some r) s with
            | (s1, none) => runDispatchList dt tl s1
            | (s1, some e) => (s1, some e))
          = (match renderChartFromAPI dt id (some r) s with
            | (s1, none) => runDispatchList dt
                (List.filter (fun p => p.2.success != some false) tl) s1
            | (s1, some e) => (s1, some e))
      cases hr : renderChartFromAPI dt id (some r) s with
      | mk s1 e =>
        cases e with
        | none => exact ih s1
        | some e => rfl

/-- A successful top-channels-ROAS payload used by the C4 scenario. -/
def c4RoasData : ApiData :=
  { ApiData.empty with
      labels := some ["Meta"]
      datasets := some [{ label := some "ROAS", data := some [some 5]
                          point := none }] }

/-- A network oracle for the C4 scenario: the pipeline-value fetch throws,
the top-channels-ROAS fetch succeeds with fresh data, and every other
fetch succeeds with an empty payload (in particular the LTV:CAC response
is a success whose data carries no `ratio`). -/
def c4net : String → NetResult := fun id =>
  if id = "perf_pipeline_value" then
    .thrown "NetworkError when attempting to fetch resource"
  else if id = "perf_top_channels_roas" then
    .response true "OK" (some { success := some true, data := some c4RoasData
                                error := none })
  else
    .response true "OK" (some { success := some true
                                data := some ApiData.empty, error := none })

/-- A state for the C4 scenario: the top-channels-ROAS chart is registered
(instance 0) and the LTV:CAC card with its ratio element is in the DOM. -/
def c4State : DashState :=
  { emptyState with
      datas := [{ labels := [.str "Jan"]
                  datasets := [{ label := some "ROAS", data := .nums [some 1]
                                 backgroundColor := .single "#000000"
                                 borderColor := .single "#000000" }] }]
      insts := [{ canvas := 0, dataRef := 0, destroyed := false
                  tooltipRevenueNew := none, tooltipRevenueRepeat := none
                  efficiencyIndex := none, currencyTag := none }]
      windowCharts := [("scalexTopChannelsRoasChart", 0)]
      domPresent := ["ltv-card", "detail-ltv-ratio"] }

/-- Claim C4, counterexample: in a refresh where one fetch fails and the
rest succeed, a handler exception raised on one *successful* response
(the LTV:CAC payload without a `ratio`) escapes `refreshPage` to the
caller, and the later successfully fetched top-channels-ROAS chart is
left with its old payload — it is never dispatched. -/
theorem refresh_handler_exception_escapes :
    (fetchChartData c4net "perf_top_channels_roas").success = some true ∧
    (refreshPage c4net (fun _ => false) "performance-overview" c4State).2
      = some (.typeError
          "Cannot read properties of undefined (reading toFixed)") ∧
    chartDataOfName (refreshPage c4net (fun _ => false) "performance-overview"
        c4State).1 "scalexTopChannelsRoasChart"
      = some (chartDataAt c4State 0) := by
  exact ⟨by decide, by decide, by decide⟩

/-- Claim C4 (amended): fetch failures are fully isolated — every failure
mode of `fetchChartData` (thrown fetch, non-ok status, unparsable body) is
returned as a `success: false` object rather than thrown; the dispatcher
applies such a result as a strict no-op with no error; and a refresh
equals the dispatch of exactly the non-failure results in list order,
with the loader hidden at the end.  One chart's *fetch* failure therefore
never cancels another chart's update and never reaches the caller; an
exception thrown by an update handler on a successful response, however,
is not caught and does propagate, as the counterexample shows. -/
theorem refreshPage_isolates_fetch_failures (net : String → NetResult)
    (dt : Nat → Bool) (page : String) (s : DashState) :
    (∀ id, isFetchFailure (net id) = true →
      (fetchChartData net id).success = some false) ∧
    (∀ id r s', r.success = some false →
      renderChartFromAPI dt id (some r) s' = (s', none)) ∧
    refreshPage net dt page s
      = (hideLoader (runDispatchList dt (successResults net page)
            (showLoader (setActivePage page s))).1,
         (runDispatchList dt (successResults net page)
            (showLoader (setActivePage page s))).2) := by
  refine ⟨?_, ?_, ?_⟩
  · intro id h
    cases hn : net id with
    | thrown msg =>
      unfold fetchChartData
      rw [hn]
    | response ok st body =>
      rw [hn] at h
      unfold fetchChartData
      rw [hn]
      cases body with
      | none => cases ok <;> rfl
      | some b =>
        cases ok with
        | false => rfl
        | true => simp [isFetchFailure] at h
  · intro id r s' h
    exact renderChartFromAPI_failure_skipped dt id r s' h
  · unfold refreshPage
    dsimp only
    rw [runDispatchList_filter_failures]
    rfl

/-- Claim C4, witness for the amended theorem at the concrete scenario
oracle: the thrown pipeline-value fetch is returned as a failure object,
dispatching it is a no-op, and the refresh equals the dispatch of the
non-failure results. -/
theorem refreshPage_isolates_fetch_failures_witness :
    (fetchChartData c4net "perf_pipeline_value").success = some false ∧
    renderChartFromAPI (fun _ => false) "perf_pipeline_value"
        (some (fetchChartData c4net "perf_pipeline_value")) c4State
      = (c4State, none) ∧
    refreshPage c4net (fun _ => false) "performance-overview" c4State
      = (hideLoader (runDispatchList (fun _ => false)
            (successResults c4net "performance-overview")
            (showLoader (setActivePage "performance-overview" c4State))).1,
         (runDispatchList (fun _ => false)
            (successResults c4net "performance-overview")
            (showLoader (setActivePage "performance-overview" c4State))).2) := by
  obtain ⟨h1, h2, h3⟩ := refreshPage_isolates_fetch_failures c4net
    (fun _ => false) "performance-overview" c4State
  exact ⟨h1 "perf_pipeline_value" (by decide),
         h2 "perf_pipeline_value" (fetchChartData c4net "perf_pipeline_value")
            c4State (by decide),
         h3⟩

/-- The cumulative effect of a write list on a DOM record. -/
def applyAssoc {α : Type} (ws D : List (String × α)) : List (String × α) :=
  ws.foldl (fun D kv => assocSet D kv.1 kv.2) D

theorem applyAssoc_cons {α : Type} (w : String × α) (ws D : List (String × α)) :
    applyAssoc (w :: ws) D = applyAssoc ws (assocSet D w.1 w.2) := rfl

theorem applyAssoc_char {α : Type} (ws : List (String × α)) :
    ∃ P : List (String × α),
      (∀ p ∈ P, (ws.any (fun w => w.1 = p.1)) = true) ∧
      ∀ D, applyAssoc ws D
        = P ++ D.filter (fun p => !(ws.any (fun w => w.1 = p.1))) := by
  induction ws with
  | nil =>
    refine ⟨[], ?_, ?_⟩
    · intro p hp
      cases hp
    · intro D
      simp [applyAssoc]
  | cons w ws ih =>
    obtain ⟨P, hP, hD⟩ := ih
    cases hw : (ws.any (fun x => x.1 = w.1)) with
    | true =>
      refine ⟨P, ?_, ?_⟩
      · intro p hp
        simp only [List.any_cons, Bool.or_eq_true]
        exact Or.inr (hP p hp)
      · intro D
        rw [applyAssoc_cons, hD]
        congr 1
        show ((w.1, w.2) :: D.filter (fun p => p.1 ≠ w.1)).filter
            (fun p => !(ws.any (fun x => x.1 = p.1)))
          = D.filter (fun p => !((w :: ws).any (fun x => x.1 = p.1)))
        rw [List.filter_cons]
        simp only [hw, Bool.not_true, Bool.false_eq_true, if_false,
          List.filter_filter]
        refine List.filter_congr ?_
        intro p hp
        by_cases h1 : w.1 = p.1
        · simp [h1, List.any_cons]
        · by_cases h2 : (ws.any (fun x => x.1 = p.1)) = true <;>
            simp [h1, h2, List.any_cons, Ne.symm h1]
    | false =>
      refine ⟨P ++ [w], ?_, ?_⟩
      · intro p hp
        simp only [List.any_cons, Bool.or_eq_true]
        rcases List.mem_append.mp hp with h | h
        · exact Or.inr (hP p h)
        · have hpw : p = w := by simpa using h
          subst hpw
          exact Or.inl (by simp)
      · intro D
        rw [applyAssoc_cons, hD, List.append_assoc]
        congr 1
        show ((w.1, w.2) :: D.filter (fun p => p.1 ≠ w.1)).filter
            (fun p => !(ws.any (fun x => x.1 = p.1)))
          = [w] ++ D.filter (fun p => !((w :: ws).any (fun x => x.1 = p.1)))
        rw [List.filter_cons]
        simp only [hw, Bool.not_false, if_true, List.filter_filter,
          List.singleton_append]
        congr 1
        refine List.filter_congr ?_
        intro p hp
        by_cases h1 : w.1 = p.1
        · simp [h1, List.any_cons]
        · by_cases h2 : (ws.any (fun x => x.1 = p.1)) = true <;>
            simp [h1, h2, List.any_cons, Ne.symm h1]

theorem applyAssoc_idem {α : Type} (ws D : List (String × α)) :
    applyAssoc ws (applyAssoc ws D) = applyAssoc ws D := by
  obtain ⟨P, hP, hD⟩ := applyAssoc_char ws
  rw [hD D, hD (P ++ D.filter (fun p => !(ws.any (fun w => w.1 = p.1)))),
      List.filter_append]
  have h1 : P.filter (fun p => !(ws.any (fun w => w.1 = p.1))) = [] := by
    refine List.filter_eq_nil_iff.mpr ?_
    intro p hp
    simp [hP p hp]
  have h2 : (D.filter (fun p => !(ws.any (fun w => w.1 = p.1)))).filter
        (fun p => !(ws.any (fun w => w.1 = p.1)))
      = D.filter (fun p => !(ws.any (fun w => w.1 = p.1))) := by
    refine List.filter_eq_self.mpr ?_
    intro p hp
    exact (List.mem_filter.mp hp).2
  rw [h1, h2, List.nil_append]

theorem applyDomWrites_eq_applyAssoc (ws : List (String × DomVal)) :
    ∀ s : DashState, applyDomWrites ws s = { s with dom := applyAssoc ws s.dom } := by
  induction ws with
  | nil => intro s; rfl
  | cons w ws ih =>
    intro s
    show applyDomWrites ws (domWrite w.1 w.2 s) = _
    rw [ih]
    rfl

theorem applyDomWrites_idem (ws : List (String × DomVal)) (s : DashState) :
    applyDomWrites ws (applyDomWrites ws s) = applyDomWrites ws s := by
  simp only [applyDomWrites_eq_applyAssoc]
  rw [applyAssoc_idem]

theorem domElem_applyDomWrites (ws : List (String × DomVal)) (s : DashState)
    (k : String) : domElem (applyDomWrites ws s) k = domElem s k := by
  rw [applyDomWrites_eq_applyAssoc]
  rfl

theorem domWrite_domWrite (k : String) (v : DomVal) (s : DashState) :
    domWrite k v (domWrite k v s) = domWrite k v s := by
  unfold domWrite
  dsimp only
  rw [assocSet_assocSet]

theorem multiSeriesData_idem (d : ApiData) (c : ChartData) :
    multiSeriesData d (multiSeriesData d c) = multiSeriesData d c := by
  unfold multiSeriesData
  dsimp only
  rw [setDataList_idem]

theorem singleSeriesData_idem (d : ApiData) (c : ChartData) :
    singleSeriesData d (singleSeriesData d c) = singleSeriesData d c := by
  unfold singleSeriesData
  dsimp only
  rw [setDataList_idem]

theorem labelsOrKeep_stable (d : ApiData) (c c' : ChartData)
    (h : c'.labels = labelsOrKeep d c) :
    labelsOrKeep d c' = labelsOrKeep d c := by
  unfold labelsOrKeep at h ⊢
  cases hd : d.labels with
  | none => rw [hd] at h; exact h
  | some ls =>
    rw [hd] at h
    by_cases hl : ls.length ≠ 0
    · simp only [if_pos hl]
    · simp only [if_neg hl] at h ⊢
      exact h

theorem updatePerfFunnelData_idem (d : ApiData) (c : ChartData) :
    updatePerfFunnelData d (updatePerfFunnelData d c) = updatePerfFunnelData d c := by
  unfold updatePerfFunnelData
  dsimp only
  rw [labelsOrKeep_stable d c _ rfl, setDataList_idem]

theorem updateBlendedPaidCACData_idem (d : ApiData) (c : ChartData) :
    updateBlendedPaidCACData d (updateBlendedPaidCACData d c)
      = updateBlendedPaidCACData d c := by
  unfold updateBlendedPaidCACData
  dsimp only
  rw [labelsOrKeep_stable d c _ rfl, setDataList_idem]

theorem setChartDataAt_setChartDataAt (r : Nat) (c : ChartData)
    (s : DashState) :
    setChartDataAt r c (setChartDataAt r c s) = setChartDataAt r c s := by
  unfold setChartDataAt
  dsimp only
  congr 1
  rw [List.set_set]

theorem setChartDataAt_modInstAt_comm (r : Nat) (c : ChartData)
    (g : ChartInst → ChartInst) (hgd : ∀ i, (g i).dataRef = i.dataRef)
    (s : DashState) :
    setChartDataAt r c (modInstAt r g s)
      = modInstAt r g (setChartDataAt r c s) := by
  unfold setChartDataAt modInstAt
  dsimp only
  have hdr : ((s.insts.set r (g (s.insts.getD r default))).getD r
        default).dataRef = (s.insts.getD r default).dataRef := by
    by_cases hr : r < s.insts.length
    · rw [List.getD_eq_getElem?_getD, List.getElem?_set_self (by simpa using hr)]
      simp [hgd]
    · rw [List.set_eq_of_length_le (Nat.le_of_not_lt hr)]
  rw [hdr]

theorem chartDataAt_setChartDataAt_lt (r : Nat) (c : ChartData)
    (s : DashState)
    (hdr : (s.insts.getD r default).dataRef < s.datas.length) :
    chartDataAt (setChartDataAt r c s) r = c := by
  unfold chartDataAt setChartDataAt
  dsimp only
  rw [List.getD_eq_getElem?_getD, List.getElem?_set_self (by simpa using hdr)]
  rfl

theorem chartDataAt_setChartDataAt_ge (r : Nat) (c : ChartData)
    (s : DashState)
    (hdr : ¬ (s.insts.getD r default).dataRef < s.datas.length) :
    chartDataAt (setChartDataAt r c s) r = chartDataAt s r := by
  unfold chartDataAt setChartDataAt
  dsimp only
  rw [List.set_eq_of_length_le (Nat.le_of_not_lt hdr)]

theorem chartDataAt_modInstAt (r : Nat) (g : ChartInst → ChartInst)
    (hgd : ∀ i, (g i).dataRef = i.dataRef) (s : DashState) :
    chartDataAt (modInstAt r g s) r = chartDataAt s r := by
  unfold chartDataAt modInstAt
  dsimp only
  have hdr : ((s.insts.set r (g (s.insts.getD r default))).getD r
        default).dataRef = (s.insts.getD r default).dataRef := by
    by_cases hr : r < s.insts.length
    · rw [List.getD_eq_getElem?_getD, List.getElem?_set_self (by simpa using hr)]
      simp [hgd]
    · rw [List.set_eq_of_length_le (Nat.le_of_not_lt hr)]
  rw [hdr]

theorem modInstAt_idem (r : Nat) (g : ChartInst → ChartInst)
    (hg : ∀ i, g (g i) = g i) (s : DashState) :
    modInstAt r g (modInstAt r g s) = modInstAt r g s := by
  unfold modInstAt
  dsimp only
  congr 1
  rw [List.set_set]
  by_cases hr : r < s.insts.length
  · rw [List.getD_eq_getElem?_getD, List.getElem?_set_self (by simpa using hr)]
    simp [hg]
  · have hy : (s.insts.set r (g (s.insts.getD r default))).getD r default
        = s.insts.getD r default := by
      rw [List.set_eq_of_length_le (Nat.le_of_not_lt hr)]
    rw [hy]

theorem modChartDataAt_idem (r : Nat) (f : ChartData → ChartData)
    (hf : ∀ c, f (f c) = f c) (s : DashState) :
    modChartDataAt r f (modChartDataAt r f s) = modChartDataAt r f s := by
  unfold modChartDataAt setChartDataAt chartDataAt
  dsimp only
  congr 1
  rw [List.set_set]
  by_cases hdr : (s.insts.getD r default).dataRef < s.datas.length
  · have hc : (s.datas.set (s.insts.getD r default).dataRef
          (f (s.datas.getD (s.insts.getD r default).dataRef default))).getD
          (s.insts.getD r default).dataRef default
        = f (s.datas.getD (s.insts.getD r default).dataRef default) := by
      rw [List.getD_eq_getElem?_getD, List.getElem?_set_self (by simpa using hdr)]
      rfl
    rw [hc, hf]
  · have hc : (s.datas.set (s.insts.getD r default).dataRef
          (f (s.datas.getD (s.insts.getD r default).dataRef default))).getD
          (s.insts.getD r default).dataRef default
        = s.datas.getD (s.insts.getD r default).dataRef default := by
      rw [List.set_eq_of_length_le (Nat.le_of_not_lt hdr)]
    rw [hc]

theorem modChartDataAt_modInstAt_comm (r : Nat) (f : ChartData → ChartData)
    (g : ChartInst → ChartInst) (hgd : ∀ i, (g i).dataRef = i.dataRef)
    (s : DashState) :
    modChartDataAt r f (modInstAt r g s)
      = modInstAt r g (modChartDataAt r f s) := by
  unfold modChartDataAt
  rw [show chartDataAt (modInstAt r g s) r = chartDataAt s r from
        chartDataAt_modInstAt r g hgd s,
      setChartDataAt_modInstAt_comm r _ g hgd s]

theorem modPair_idem (r : Nat) (f : ChartData → ChartData)
    (g : ChartInst → ChartInst)
    (hf : ∀ c, f (f c) = f c) (hg : ∀ i, g (g i) = g i)
    (hgd : ∀ i, (g i).dataRef = i.dataRef) (s : DashState) :
    modInstAt r g (modChartDataAt r f (modInstAt r g (modChartDataAt r f s)))
      = modInstAt r g (modChartDataAt r f s) := by
  rw [modChartDataAt_modInstAt_comm r f g hgd,
      modInstAt_idem r g hg, modChartDataAt_idem r f hf]

theorem pureH_idem (f : DashState → DashState) (s : DashState)
    (hf : f (f s) = f s) :
    pureH f (pureH f s).1 = pureH f s := by
  unfold pureH
  rw [hf]

theorem modChartData_idem (name : String) (f : ChartData → ChartData)
    (hf : ∀ c, f (f c) = f c) (s : DashState) :
    modChartData name f (modChartData name f s) = modChartData name f s := by
  unfold modChartData withWindowChart
  cases h : assocFind s.windowCharts name with
  | none => simp only [h]
  | some r =>
    simp only [h]
    rw [show (modChartDataAt r f s).windowCharts = s.windowCharts from rfl, h]
    exact modChartDataAt_idem r f hf s

theorem domElem_domWrite (k : String) (v : DomVal) (s : DashState)
    (k' : String) : domElem (domWrite k v s) k' = domElem s k' := rfl

/-- The composite DOM value `updateSmartAlertCard` writes in its main
branch. -/
def alertDomVal (cardLabel : String) (d : ApiData) : DomVal :=
  let sev := mapSeverityToClasses d.severity
  let iconChar := if mapIconCode d.icon ≠ "" then mapIconCode d.icon else sev.2.2
  .alert cardLabel (d.mainPrefix.getD "") (d.mainHighlight.getD "")
    (d.mainSuffix.getD "") (d.subtext.getD "") sev.1 sev.2.1
    ("alert-card--" ++ d.severity.getD "undefined") iconChar

theorem updateSmartAlertCard_idem (cardId cardLabel : String) (d : ApiData)
    (s : DashState) :
    updateSmartAlertCard cardId cardLabel d
        (updateSmartAlertCard cardId cardLabel d s)
      = updateSmartAlertCard cardId cardLabel d s := by
  cases h1 : domElem s cardId with
  | false =>
    have e : updateSmartAlertCard cardId cardLabel d s = s := by
      unfold updateSmartAlertCard
      simp only [h1, Bool.not_false, if_true]
    rw [e]
    exact e
  | true =>
    cases h2 : domElem s (cardId ++ "#structure") with
    | false =>
      have e : updateSmartAlertCard cardId cardLabel d s = s := by
        unfold updateSmartAlertCard
        simp only [h1, h2, Bool.not_true, Bool.not_false, Bool.false_eq_true,
          if_false, if_true]
      rw [e]
      exact e
    | true =>
      have e : updateSmartAlertCard cardId cardLabel d s
          = domWrite cardId (alertDomVal cardLabel d) s := by
        unfold updateSmartAlertCard alertDomVal
        simp only [h1, h2, Bool.not_true, Bool.false_eq_true, if_false]
      rw [e]
      have e2 : updateSmartAlertCard cardId cardLabel d
            (domWrite cardId (alertDomVal cardLabel d) s)
          = domWrite cardId (alertDomVal cardLabel d)
              (domWrite cardId (alertDomVal cardLabel d) s) := by
        unfold updateSmartAlertCard alertDomVal
        simp only [domElem_domWrite, h1, h2, Bool.not_true, Bool.false_eq_true,
          if_false]
      rw [e2, domWrite_domWrite]

/-- The DOM value one creative-performance tile write records. -/
def tileDomVal (kind : String) (m : TileMetric) : DomVal :=
  if kind = "cpc" then
    .tile (mapIconCode m.direction) (mapIconColor m.direction) kind
      m.currentValue (m.deltaPercent.map (|·|))
  else
    .tile (mapIconCode m.direction) (mapIconColor m.direction) kind
      m.currentPercent m.deltaPoints

theorem updateTile_eq (key kind : String) (m : TileMetric) (s : DashState) :
    updateTile key kind m s
      = applyDomWrites
          (if domElem s key then [(key, tileDomVal kind m)] else []) s := by
  unfold updateTile tileDomVal
  cases h : domElem s key with
  | false => simp only [h, Bool.not_false, if_true, if_false]; rfl
  | true =>
    simp only [h, Bool.not_true, Bool.false_eq_true, if_false, if_true]
    by_cases hk : kind = "cpc"
    · simp only [if_pos hk]; rfl
    · simp only [if_neg hk]; rfl

theorem applyDomWrites_append (a b : List (String × DomVal)) (s : DashState) :
    applyDomWrites (a ++ b) s = applyDomWrites b (applyDomWrites a s) := by
  unfold applyDomWrites
  rw [List.foldl_append]

theorem tilesBody_eq (mCtr mCpc mEng : TileMetric) (s : DashState) :
    updateTile "metric-tile-engagement" "engagement" mEng
        (updateTile "metric-tile-cpc" "cpc" mCpc
          (updateTile "metric-tile-ctr" "ctr" mCtr s))
      = applyDomWrites
          ((if domElem s "metric-tile-ctr" then
              [("metric-tile-ctr", tileDomVal "ctr" mCtr)] else [])
            ++ ((if domElem s "metric-tile-cpc" then
                  [("metric-tile-cpc", tileDomVal "cpc" mCpc)] else [])
              ++ (if domElem s "metric-tile-engagement" then
                    [("metric-tile-engagement", tileDomVal "engagement" mEng)]
                  else []))) s := by
  rw [applyDomWrites_append, applyDomWrites_append]
  rw [updateTile_eq "metric-tile-ctr" "ctr" mCtr s]
  rw [updateTile_eq "metric-tile-cpc" "cpc" mCpc]
  rw [domElem_applyDomWrites]
  rw [updateTile_eq "metric-tile-engagement" "engagement" mEng]
  rw [domElem_applyDomWrites, domElem_applyDomWrites]

theorem updateCreativePerfTiles_idem (d : ApiData) (s : DashState) :
    updateCreativePerfTilesFromAPI d (updateCreativePerfTilesFromAPI d s)
      = updateCreativePerfTilesFromAPI d s := by
  unfold updateCreativePerfTilesFromAPI
  cases hc1 : d.ctr with
  | none => simp only [hc1]
  | some mCtr =>
    cases hc2 : d.cpc with
    | none => simp only [hc1, hc2]
    | some mCpc =>
      cases hc3 : d.engagement with
      | none => simp only [hc1, hc2, hc3]
      | some mEng =>
        simp only [hc1, hc2, hc3]
        cases hg : (!(domElem s "metric-tile-ctr")
            && !(domElem s "metric-tile-cpc")
            && !(domElem s "metric-tile-engagement")) with
        | true => simp only [hg, if_true]
        | false =>
          simp only [hg, Bool.false_eq_true, if_false]
          rw [tilesBody_eq mCtr mCpc mEng s]
          simp only [domElem_applyDomWrites, hg, Bool.false_eq_true, if_false]
          rw [tilesBody_eq]
          simp only [domElem_applyDomWrites]
          rw [applyDomWrites_idem]

theorem updateChannelSnapshotTable_idem (d : ApiData) (s : DashState) :
    updateChannelSnapshotTableFromAPI d (updateChannelSnapshotTableFromAPI d s)
      = updateChannelSnapshotTableFromAPI d s := by
  unfold updateChannelSnapshotTableFromAPI
  cases hr : d.rows with
  | none => simp only [hr]
  | some rows =>
    simp only [hr]
    by_cases hlen : rows.length = 0
    · simp only [if_pos hlen]
    · simp only [if_neg hlen]
      cases ht : domElem s "channel-performance-table" with
      | false => simp only [ht, Bool.not_false, if_true]
      | true =>
        simp only [ht, Bool.not_true, Bool.false_eq_true, if_false]
        rw [if_neg (by simpa [domElem, domWrite] using ht)]
        unfold domWrite
        dsimp only
        congr 1
        rw [assocSet_assocSet]

theorem updateLtvCacRatio_idem (d : ApiData) (s : DashState) :
    updateLtvCacRatioFromAPI d (updateLtvCacRatioFromAPI d s).1
      = updateLtvCacRatioFromAPI d s := by
  unfold updateLtvCacRatioFromAPI
  cases hcard : domElem s "ltv-card" with
  | false => simp only [hcard, Bool.not_false, if_true]
  | true =>
    simp only [hcard, Bool.not_true, Bool.false_eq_true, if_false]
    cases hst : ltvSteps (domElem s "detail-ltv-ratio")
        (domElem s "detail-ltv-subtext") (domElem s "detail-ltv-badge") d with
    | mk ws e =>
      simp only [hst, domElem_applyDomWrites, hcard, Bool.not_true,
        Bool.false_eq_true, if_false, applyDomWrites_idem]

theorem getD_set_self {α : Type} [Inhabited α] (l : List α) (i : Nat) (a : α)
    (h : i < l.length) : (l.set i a).getD i default = a := by
  rw [List.getD_eq_getElem?_getD, List.getElem?_set_self (by simpa using h)]
  rfl

theorem updateSpendEff_idem (d : ApiData) (s : DashState) :
    updateChannelSpendEfficiencyFromAPI d
        (updateChannelSpendEfficiencyFromAPI d s)
      = updateChannelSpendEfficiencyFromAPI d s := by
  unfold updateChannelSpendEfficiencyFromAPI withWindowChart
  cases h : assocFind s.windowCharts "scalexSpendEfficiencyChart" with
  | none => simp only [h]
  | some r =>
    simp only [h]
    rw [show (modInstAt r
            (fun i => { i with efficiencyIndex := some (d.index.getD []) })
            (modChartDataAt r (multiSeriesData d) s)).windowCharts
          = s.windowCharts from rfl, h]
    dsimp only
    exact modPair_idem r (multiSeriesData d)
      (fun i => { i with efficiencyIndex := some (d.index.getD []) })
      (multiSeriesData_idem d) (fun i => rfl) (fun i => rfl) s

theorem leadQualityCore_stable (d : ApiData) (scores : List (Option Rat))
    (c : ChartData) :
    leadQualityCore d scores (leadQualityCore d scores c).1
      = leadQualityCore d scores c := by
  unfold leadQualityCore setSeriesDataAt
  dsimp only
  by_cases hlen : 0 < c.datasets.length
  · simp only [if_pos hlen, List.length_set, List.set_set,
      getD_set_self _ _ _ hlen]
  · simp only [if_neg hlen, List.length_set]

theorem getD_set_ne {α : Type} [Inhabited α] (l : List α) (i j : Nat) (a : α)
    (h : j ≠ i) : (l.set i a).getD j default = l.getD j default := by
  rw [List.getD_eq_getElem?_getD, List.getD_eq_getElem?_getD,
      List.getElem?_set_ne (fun hc => h hc.symm)]

theorem updateChannelLeadQuality_idem (d : ApiData) (s : DashState) :
    updateChannelLeadQualityFromAPI d (updateChannelLeadQualityFromAPI d s).1
      = updateChannelLeadQualityFromAPI d s := by
  unfold updateChannelLeadQualityFromAPI
  cases h : assocFind s.windowCharts "scalexLeadQualityChart" with
  | none => simp only [h]
  | some r =>
    simp only [h]
    cases hh : (d.datasets.getD []).head? with
    | none => simp only [hh, h]
    | some first =>
      simp only [hh]
      cases hcore : leadQualityCore d (first.data.getD []) (chartDataAt s r) with
      | mk c2 e =>
        simp only [hcore]
        rw [show (setChartDataAt r c2 s).windowCharts = s.windowCharts from rfl,
            h]
        dsimp only
        by_cases hdr : (s.insts.getD r default).dataRef < s.datas.length
        · rw [chartDataAt_setChartDataAt_lt r c2 s hdr]
          have hstab := leadQualityCore_stable d (first.data.getD [])
            (chartDataAt s r)
          rw [hcore] at hstab
          dsimp only at hstab
          simp only [hstab]
          rw [setChartDataAt_setChartDataAt]
        · rw [chartDataAt_setChartDataAt_ge r c2 s hdr]
          simp only [hcore]
          rw [setChartDataAt_setChartDataAt]

theorem newVsRepeatCore_stable (d : ApiData) (c : ChartData) :
    newVsRepeatCore d (newVsRepeatCore d c).1 = newVsRepeatCore d c := by
  have h01 : (0 : Nat) ≠ 1 := by decide
  have h10 : (1 : Nat) ≠ 0 := by decide
  unfold newVsRepeatCore setSeriesDataAt
  dsimp only
  cases hds : d.datasets with
  | none => rfl
  | some raws =>
    dsimp only
    cases hf : findDsByLabel raws "new" with
    | none =>
      dsimp only
      cases hr : findDsByLabel raws "repeat" with
      | none => rfl
      | some rd =>
        dsimp only
        by_cases h1 : 1 < c.datasets.length
        · simp only [List.length_set, h1, if_true, List.set_set,
            getD_set_self, getD_set_ne, h01, h10]
        · simp only [List.length_set, h1, if_false]
    | some nd =>
      dsimp only
      by_cases h0 : 0 < c.datasets.length
      · by_cases h1 : 1 < c.datasets.length
        · cases hr : findDsByLabel raws "repeat" with
          | none =>
            simp only [List.length_set, h0, if_true, List.set_set,
              getD_set_self, getD_set_ne, h01, h10]
          | some rd =>
            simp only [List.length_set, h0, h1, if_true]
            generalize hy : ({ c.datasets.getD 0 default with
              data := SeriesData.nums (nd.data.getD []) } : DataSeries) = y
            rw [getD_set_ne c.datasets 0 1 y h10]
            generalize hz : ({ c.datasets.getD 1 default with
              data := SeriesData.nums (rd.data.getD []) } : DataSeries) = z
            have hY : ({ y with data := SeriesData.nums (nd.data.getD []) }
                : DataSeries) = y := by rw [← hy]
            have hZ : ({ z with data := SeriesData.nums (rd.data.getD []) }
                : DataSeries) = z := by rw [← hz]
            rw [getD_set_ne (c.datasets.set 0 y) 1 0 z h01,
                getD_set_self c.datasets 0 y h0, hY]
            rw [List.set_comm z y (c.datasets.set 0 y) h10]
            rw [List.set_set, List.set_set]
            rw [getD_set_self (c.datasets.set 0 y) 1 z
                  (by rw [List.length_set]; exact h1), hZ]
        · cases hr : findDsByLabel raws "repeat" with
          | none =>
            simp only [List.length_set, h0, if_true, List.set_set,
              getD_set_self, getD_set_ne, h01, h10]
          | some rd =>
            simp only [List.length_set, h0, h1, if_true, if_false,
              List.set_set, getD_set_self, getD_set_ne, h01, h10]
      · simp only [List.length_set, h0, if_false]

theorem updateNewVsRepeat_idem (d : ApiData) (s : DashState) :
    updateNewVsRepeatMixFromAPI d (updateNewVsRepeatMixFromAPI d s).1
      = updateNewVsRepeatMixFromAPI d s := by
  unfold updateNewVsRepeatMixFromAPI
  cases h : assocFind s.windowCharts "scalexNewVsRepeatMixChart" with
  | none => simp only [h]
  | some r =>
    simp only [h]
    cases hcore : newVsRepeatCore d (chartDataAt s r) with
    | mk c2 e =>
      cases e with
      | some err =>
        simp only [hcore]
        rw [show (setChartDataAt r c2 s).windowCharts = s.windowCharts from rfl,
            h]
        dsimp only
        by_cases hdr : (s.insts.getD r default).dataRef < s.datas.length
        · rw [chartDataAt_setChartDataAt_lt r c2 s hdr]
          have hstab := newVsRepeatCore_stable d (chartDataAt s r)
          rw [hcore] at hstab
          dsimp only at hstab
          rw [hstab]
          dsimp only
          rw [setChartDataAt_setChartDataAt]
        · rw [chartDataAt_setChartDataAt_ge r c2 s hdr, hcore]
          dsimp only
          rw [setChartDataAt_setChartDataAt]
      | none =>
        simp only [hcore]
        set g : ChartInst → ChartInst := fun i =>
          { i with
              tooltipRevenueNew :=
                some ((d.tooltipRevenue.bind (·.tnew)).getD [])
              tooltipRevenueRepeat :=
                some ((d.tooltipRevenue.bind (·.rep)).getD []) } with hgdef
        rw [show (modInstAt r g (setChartDataAt r c2 s)).windowCharts
              = s.windowCharts from rfl, h]
        dsimp only
        by_cases hdr : (s.insts.getD r default).dataRef < s.datas.length
        · rw [chartDataAt_modInstAt r g (fun i => rfl) (setChartDataAt r c2 s),
              chartDataAt_setChartDataAt_lt r c2 s hdr]
          have hstab := newVsRepeatCore_stable d (chartDataAt s r)
          rw [hcore] at hstab
          dsimp only at hstab
          rw [hstab]
          dsimp only
          rw [setChartDataAt_modInstAt_comm r c2 g (fun i => rfl),
              modInstAt_idem r g (fun i => rfl), setChartDataAt_setChartDataAt]
        · rw [chartDataAt_modInstAt r g (fun i => rfl) (setChartDataAt r c2 s),
              chartDataAt_setChartDataAt_ge r c2 s hdr, hcore]
          dsimp only
          rw [setChartDataAt_modInstAt_comm r c2 g (fun i => rfl),
              modInstAt_idem r g (fun i => rfl), setChartDataAt_setChartDataAt]

theorem modInstAt_windowCharts (r : Nat) (g : ChartInst → ChartInst)
    (s : DashState) : (modInstAt r g s).windowCharts = s.windowCharts := rfl

theorem modChartDataAt_windowCharts (r : Nat) (f : ChartData → ChartData)
    (s : DashState) : (modChartDataAt r f s).windowCharts = s.windowCharts := rfl

theorem assignSeries_idem (r i : Nat) (v : SeriesData) (s : DashState) :
    assignSeries r i v (assignSeries r i v s).1 = assignSeries r i v s := by
  unfold assignSeries setSeriesDataAt modChartDataAt
  dsimp only
  by_cases h0 : i < (chartDataAt s r).datasets.length
  · have hdr : (s.insts.getD r default).dataRef < s.datas.length := by
      by_contra hc
      have hd : chartDataAt s r = default := by
        unfold chartDataAt
        rw [List.getD_eq_getElem?_getD,
            List.getElem?_eq_none (Nat.le_of_not_lt hc)]
        rfl
      rw [hd] at h0
      rw [show ((default : ChartData)).datasets.length = 0 from rfl] at h0
      exact absurd h0 (Nat.not_lt_zero i)
    simp only [h0, if_true]
    generalize hy : ({ (chartDataAt s r).datasets.getD i default with
      data := v } : DataSeries) = y
    rw [chartDataAt_setChartDataAt_lt r _ s hdr]
    dsimp only
    simp only [List.length_set, h0, if_true]
    rw [getD_set_self (chartDataAt s r).datasets i y h0]
    have hY : ({ y with data := v } : DataSeries) = y := by rw [← hy]
    rw [hY, List.set_set]
    rw [setChartDataAt_setChartDataAt]
  · simp only [h0, if_false]

/-- The `chart.data` transformation of the bubble handler's non-empty
branch (install a fresh single-dataset array when the chart has none,
otherwise overwrite slot 0). -/
def bubbleApply (pts : List BubblePoint) (c : ChartData) : ChartData :=
  if c.datasets.length = 0 then
    { c with datasets := [{ label := some "Campaigns"
                            data := .bubbles pts
                            backgroundColor := .unset
                            borderColor := .unset }] }
  else
    { c with datasets :=
        c.datasets.set 0 { c.datasets.getD 0 default with
                             data := .bubbles pts
                             label := some "Campaigns" } }

theorem bubbleF_idem (pts : List BubblePoint) (c : ChartData) :
    bubbleApply pts (bubbleApply pts c) = bubbleApply pts c := by
  unfold bubbleApply
  by_cases h : c.datasets.length = 0
  · simp [h]
  · have h0 : 0 < c.datasets.length := Nat.pos_of_ne_zero h
    simp only [h, if_false]
    simp only [List.length_set, h, if_false]
    rw [getD_set_self c.datasets 0 _ h0]
    rw [List.set_set]

theorem updateCampaignRoiBubble_idem (d : ApiData) (s : DashState) :
    updateCampaignRoiBubbleFromAPI d (updateCampaignRoiBubbleFromAPI d s).1
      = updateCampaignRoiBubbleFromAPI d s := by
  unfold updateCampaignRoiBubbleFromAPI
  cases h : assocFind s.windowCharts "scalexCampaignRoiBubbleChart" with
  | none => simp only [h]
  | some r =>
    simp only [h]
    by_cases hlen : (d.datasets.getD []).length = 0
    · simp only [hlen, if_true]
      have hw : ((assignSeries r 0 (SeriesData.bubbles []) s).1).windowCharts
          = s.windowCharts := by
        unfold assignSeries
        cases setSeriesDataAt 0 (SeriesData.bubbles [])
            (chartDataAt s r).datasets <;> rfl
      rw [hw, h]
      dsimp only
      exact assignSeries_idem r 0 (SeriesData.bubbles []) s
    · simp only [hlen, if_false]
      rw [modInstAt_windowCharts, modChartDataAt_windowCharts, h]
      dsimp only
      exact congrArg (fun x => (x, (none : Option JsErr)))
        (modPair_idem r
          (bubbleApply ((d.datasets.getD []).map
            (mkBubblePoint (d.currency.getD "INR"))))
          (fun i => { i with currencyTag := some (d.currency.getD "INR") })
          (bubbleF_idem _) (fun i => rfl) (fun i => rfl) s)

/-- The payload content of the cached KPI chart for `key` (the observable
"normalized chart data" of a KPI identifier). -/
def kpiChartData (s : DashState) (key : String) : Option ChartData :=
  (assocFind s.kpiCharts key).map (chartDataAt s)

/-- The sparkline chart data `renderKPISparkline` builds from `values`. -/
def sparkCD (vals : List Rat) (strokeColor fillColor : String) : ChartData :=
  { labels := (List.range vals.length).map (fun i => .num ((i + 1 : Nat) : Rat))
    datasets := [{ label := none, data := .nums (vals.map some)
                   backgroundColor := .single fillColor
                   borderColor := .single strokeColor }] }

theorem renderKPISparkline_dom (dt : Nat → Bool) (cp : Bool)
    (values : Option (List Rat)) (stroke fill key : String) (s : DashState) :
    (renderKPISparkline dt cp values stroke fill key s).dom = s.dom := by
  unfold renderKPISparkline tryDestroy destroyInst modInstAt allocChart
    assocDrop
  dsimp only
  repeat first | rfl | (split <;> (try dsimp only))

theorem renderKPISparkline_domPresent (dt : Nat → Bool) (cp : Bool)
    (values : Option (List Rat)) (stroke fill key : String) (s : DashState) :
    (renderKPISparkline dt cp values stroke fill key s).domPresent
      = s.domPresent := by
  unfold renderKPISparkline tryDestroy destroyInst modInstAt allocChart
    assocDrop
  dsimp only
  repeat first | rfl | (split <;> (try dsimp only))

theorem domElem_renderKPISparkline (dt : Nat → Bool) (cp : Bool)
    (values : Option (List Rat)) (stroke fill key : String) (s : DashState)
    (x : String) :
    domElem (renderKPISparkline dt cp values stroke fill key s) x
      = domElem s x := by
  unfold domElem
  rw [renderKPISparkline_domPresent]

theorem renderKPISparkline_absent (dt : Nat → Bool)
    (values : Option (List Rat)) (stroke fill key : String) (s : DashState) :
    renderKPISparkline dt false values stroke fill key s = s := rfl

theorem kpiChartData_after_alloc (key : String) (cd : ChartData)
    (s : DashState) :
    kpiChartData
      { (allocChart 0 cd s).1 with
          kpiCharts := assocSet (allocChart 0 cd s).1.kpiCharts key
            (allocChart 0 cd s).2 } key = some cd := by
  unfold kpiChartData allocChart
  dsimp only
  rw [assocFind_assocSet_self]
  simp only [Option.map_some']
  unfold chartDataAt
  dsimp only
  rw [getD_concat_length]
  dsimp only
  rw [getD_concat_length]

theorem renderKPISparkline_obs (dt : Nat → Bool) (vals : List Rat)
    (stroke fill key : String) (s : DashState)
    (hnz : vals.length ≠ 0) (hk : key ≠ "") :
    kpiChartData (renderKPISparkline dt true (some vals) stroke fill key s)
        key
      = some (sparkCD vals stroke fill) := by
  unfold renderKPISparkline sparkCD
  simp only [Bool.not_true, Bool.false_eq_true, if_false]
  rw [if_neg hnz]
  simp only [if_pos hk]
  cases hc : assocFind s.kpiCharts key with
  | none =>
    dsimp only
    exact kpiChartData_after_alloc key _ s
  | some r =>
    dsimp only
    exact kpiChartData_after_alloc key _ _

theorem updateKpiCards_obs_idem (dt : Nat → Bool) (d : ApiData)
    (currId prevId changeId canvasId kpiType : String) (s : DashState)
    (hk : kpiType ≠ "") :
    (updateKpiCards dt d currId prevId changeId canvasId kpiType
        (updateKpiCards dt d currId prevId changeId canvasId kpiType s)).dom
      = (updateKpiCards dt d currId prevId changeId canvasId kpiType s).dom ∧
    kpiChartData (updateKpiCards dt d currId prevId changeId canvasId kpiType
        (updateKpiCards dt d currId prevId changeId canvasId kpiType s))
        kpiType
      = kpiChartData (updateKpiCards dt d currId prevId changeId canvasId
          kpiType s) kpiType := by
  unfold updateKpiCards
  cases kpiConfig kpiType with
  | none => exact ⟨rfl, rfl⟩
  | some cfg =>
    dsimp only
    cases hsp : d.sparkline with
    | none =>
      dsimp only
      simp only [domElem_applyDomWrites]
      rw [applyDomWrites_idem]
      exact ⟨rfl, rfl⟩
    | some vals =>
      dsimp only
      by_cases hnz : vals.length ≠ 0
      · simp only [if_pos hnz]
        simp only [domElem_applyDomWrites, domElem_renderKPISparkline]
        cases hcv : domElem s canvasId with
        | false =>
          simp only [renderKPISparkline_absent]
          rw [applyDomWrites_idem]
          exact ⟨rfl, rfl⟩
        | true =>
          constructor
          · simp only [renderKPISparkline_dom, applyDomWrites_eq_applyAssoc,
              applyAssoc_idem]
          · rw [renderKPISparkline_obs dt vals cfg.color cfg.fill kpiType _
                  hnz hk,
                renderKPISparkline_obs dt vals cfg.color cfg.fill kpiType _
                  hnz hk]
      · simp only [if_neg hnz]
        simp only [domElem_applyDomWrites]
        rw [applyDomWrites_idem]
        exact ⟨rfl, rfl⟩

/-- Whether the identifier is one of the four KPI cards. -/
def isKpiId (id : String) : Bool :=
  id = "kpi_revenue" || id = "kpi_ad_spend" || id = "kpi_roas"
    || id = "kpi_roi"

/-- The sparkline cache key a KPI identifier's handler uses. -/
def kpiKeyOf (id : String) : String :=
  if id = "kpi_revenue" then "revenue"
  else if id = "kpi_ad_spend" then "spend"
  else if id = "kpi_roas" then "roas"
  else "roi"

/-- Claim C9: dispatching the identical response through an
identifier's update handler twice produces the same normalized chart
data both times.  For every non-KPI identifier the second dispatch
returns exactly the state and error of the first (state-level
idempotence); for the four KPI identifiers the cached instance is
recreated (see C5) but the observable outcome is unchanged: the DOM
record and the cached sparkline's payload after the second dispatch
equal those after the first, with no error either time. -/
theorem dispatch_idempotent (dt : Nat → Bool) (chartId : String)
    (response : Option Response) (s : DashState) :
    (isKpiId chartId = false →
      renderChartFromAPI dt chartId response
          (renderChartFromAPI dt chartId response s).1
        = renderChartFromAPI dt chartId response s) ∧
    (isKpiId chartId = true →
      (renderChartFromAPI dt chartId response
          (renderChartFromAPI dt chartId response s).1).1.dom
        = (renderChartFromAPI dt chartId response s).1.dom ∧
      kpiChartData (renderChartFromAPI dt chartId response
          (renderChartFromAPI dt chartId response s).1).1
          (kpiKeyOf chartId)
        = kpiChartData (renderChartFromAPI dt chartId response s).1
            (kpiKeyOf chartId) ∧
      (renderChartFromAPI dt chartId response
          (renderChartFromAPI dt chartId response s).1).2
        = (renderChartFromAPI dt chartId response s).2) := by
  cases response with
  | none => exact ⟨fun _ => rfl, fun _ => ⟨rfl, rfl, rfl⟩⟩
  | some resp =>
    unfold renderChartFromAPI
    dsimp only
    by_cases hsf : resp.success = some false
    · simp [if_pos hsf]
    · simp only [if_neg hsf]
      unfold dispatchHandler
      by_cases h1 : chartId = "kpi_revenue"
      · rw [if_pos h1]
        refine ⟨fun hf => ?_, fun _ => ?_⟩
        · rw [h1] at hf
          exact absurd hf (by decide)
        · dsimp only [pureH]
          rw [h1]
          rw [show kpiKeyOf "kpi_revenue" = "revenue" from rfl]
          obtain ⟨hdom, hkpi⟩ := updateKpiCards_obs_idem dt
            (resp.data.getD ApiData.empty) "rev-current" "rev-prev"
            "rev-change" "rev-chart" "revenue" s (by decide)
          exact ⟨hdom, hkpi, rfl⟩
      rw [if_neg h1]
      by_cases h2 : chartId = "kpi_ad_spend"
      · rw [if_pos h2]
        refine ⟨fun hf => ?_, fun _ => ?_⟩
        · rw [h2] at hf
          exact absurd hf (by decide)
        · dsimp only [pureH]
          rw [h2]
          rw [show kpiKeyOf "kpi_ad_spend" = "spend" from rfl]
          obtain ⟨hdom, hkpi⟩ := updateKpiCards_obs_idem dt
            (resp.data.getD ApiData.empty) "spend-current" "spend-prev"
            "spend-change" "spend-chart" "spend" s (by decide)
          exact ⟨hdom, hkpi, rfl⟩
      rw [if_neg h2]
      by_cases h3 : chartId = "kpi_roas"
      · rw [if_pos h3]
        refine ⟨fun hf => ?_, fun _ => ?_⟩
        · rw [h3] at hf
          exact absurd hf (by decide)
        · dsimp only [pureH]
          rw [h3]
          rw [show kpiKeyOf "kpi_roas" = "roas" from rfl]
          obtain ⟨hdom, hkpi⟩ := updateKpiCards_obs_idem dt
            (resp.data.getD ApiData.empty) "roas-current" "roas-prev"
            "roas-change" "roas-chart" "roas" s (by decide)
          exact ⟨hdom, hkpi, rfl⟩
      rw [if_neg h3]
      by_cases h4 : chartId = "kpi_roi"
      · rw [if_pos h4]
        refine ⟨fun hf => ?_, fun _ => ?_⟩
        · rw [h4] at hf
          exact absurd hf (by decide)
        · dsimp only [pureH]
          rw [h4]
          rw [show kpiKeyOf "kpi_roi" = "roi" from rfl]
          obtain ⟨hdom, hkpi⟩ := updateKpiCards_obs_idem dt
            (resp.data.getD ApiData.empty) "roi-current" "roi-prev"
            "roi-change" "roi-chart" "roi" s (by decide)
          exact ⟨hdom, hkpi, rfl⟩
      rw [if_neg h4]
      by_cases h5 : chartId = "alert_performance_gain"
      · rw [if_pos h5]
        refine ⟨fun _ => ?_, fun hf => ?_⟩
        · exact pureH_idem _ s (updateSmartAlertCard_idem "alert-card-performance-gain" "Performance Gain" (resp.data.getD ApiData.empty) s)
        · rw [h5] at hf
          exact absurd hf (by decide)
      rw [if_neg h5]
      by_cases h6 : chartId = "alert_channel_mix"
      · rw [if_pos h6]
        refine ⟨fun _ => ?_, fun hf => ?_⟩
        · exact pureH_idem _ s (updateSmartAlertCard_idem "alert-card-channel-mix" "Channel Mix Efficiency" (resp.data.getD ApiData.empty) s)
        · rw [h6] at hf
          exact absurd hf (by decide)
      rw [if_neg h6]
      by_cases h7 : chartId = "alert_budget_reallocation"
      · rw [if_pos h7]
        refine ⟨fun _ => ?_, fun hf => ?_⟩
        · exact pureH_idem _ s (updateSmartAlertCard_idem "alert-card-budget-risk" "Budget / Risk" (resp.data.getD ApiData.empty) s)
        · rw [h7] at hf
          exact absurd hf (by decide)
      rw [if_neg h7]
      by_cases h8 : chartId = "perf_funnel_by_channel"
      · rw [if_pos h8]
        refine ⟨fun _ => ?_, fun hf => ?_⟩
        · exact pureH_idem _ s (modChartData_idem _ _ (fun c => updatePerfFunnelData_idem (resp.data.getD ApiData.empty) c) s)
        · rw [h8] at hf
          exact absurd hf (by decide)
      rw [if_neg h8]
      by_cases h9 : chartId = "perf_cac_blended_vs_paid"
      · rw [if_pos h9]
        refine ⟨fun _ => ?_, fun hf => ?_⟩
        · exact pureH_idem _ s (modChartData_idem _ _ (fun c => updateBlendedPaidCACData_idem (resp.data.getD ApiData.empty) c) s)
        · rw [h9] at hf
          exact absurd hf (by decide)
      rw [if_neg h9]
      by_cases h10 : chartId = "perf_cac_trend_by_channel"
      · rw [if_pos h10]
        refine ⟨fun _ => ?_, fun hf => ?_⟩
        · exact pureH_idem _ s (modChartData_idem _ _ (fun c => multiSeriesData_idem (resp.data.getD ApiData.empty) c) s)
        · rw [h10] at hf
          exact absurd hf (by decide)
      rw [if_neg h10]
      by_cases h11 : chartId = "perf_paid_roi_by_stage"
      · rw [if_pos h11]
        refine ⟨fun _ => ?_, fun hf => ?_⟩
        · exact pureH_idem _ s (modChartData_idem _ _ (fun c => multiSeriesData_idem (resp.data.getD ApiData.empty) c) s)
        · rw [h11] at hf
          exact absurd hf (by decide)
      rw [if_neg h11]
      by_cases h12 : chartId = "perf_pipeline_value"
      · rw [if_pos h12]
        refine ⟨fun _ => ?_, fun hf => ?_⟩
        · exact pureH_idem _ s (modChartData_idem _ _ (fun c => singleSeriesData_idem (resp.data.getD ApiData.empty) c) s)
        · rw [h12] at hf
          exact absurd hf (by decide)
      rw [if_neg h12]
      by_cases h13 : chartId = "perf_ltv_cac_ratio"
      · rw [if_pos h13]
        refine ⟨fun _ => ?_, fun hf => ?_⟩
        · exact updateLtvCacRatio_idem (resp.data.getD ApiData.empty) s
        · rw [h13] at hf
          exact absurd hf (by decide)
      rw [if_neg h13]
      by_cases h14 : chartId = "perf_ltv_by_cohort"
      · rw [if_pos h14]
        refine ⟨fun _ => ?_, fun hf => ?_⟩
        · exact pureH_idem _ s (modChartData_idem _ _ (fun c => singleSeriesData_idem (resp.data.getD ApiData.empty) c) s)
        · rw [h14] at hf
          exact absurd hf (by decide)
      rw [if_neg h14]
      by_cases h15 : chartId = "perf_attribution_accuracy"
      · rw [if_pos h15]
        refine ⟨fun _ => ?_, fun hf => ?_⟩
        · exact pureH_idem _ s (modChartData_idem _ _ (fun c => multiSeriesData_idem (resp.data.getD ApiData.empty) c) s)
        · rw [h15] at hf
          exact absurd hf (by decide)
      rw [if_neg h15]
      by_cases h16 : chartId = "perf_top_channels_roas"
      · rw [if_pos h16]
        refine ⟨fun _ => ?_, fun hf => ?_⟩
        · exact pureH_idem _ s (modChartData_idem _ _ (fun c => singleSeriesData_idem (resp.data.getD ApiData.empty) c) s)
        · rw [h16] at hf
          exact absurd hf (by decide)
      rw [if_neg h16]
      by_cases h17 : chartId = "perf_new_vs_repeat_mix"
      · rw [if_pos h17]
        refine ⟨fun _ => ?_, fun hf => ?_⟩
        · exact updateNewVsRepeat_idem (resp.data.getD ApiData.empty) s
        · rw [h17] at hf
          exact absurd hf (by decide)
      rw [if_neg h17]
      by_cases h18 : chartId = "channel_cpl_cac_roas"
      · rw [if_pos h18]
        refine ⟨fun _ => ?_, fun hf => ?_⟩
        · exact pureH_idem _ s (modChartData_idem _ _ (fun c => multiSeriesData_idem (resp.data.getD ApiData.empty) c) s)
        · rw [h18] at hf
          exact absurd hf (by decide)
      rw [if_neg h18]
      by_cases h19 : chartId = "campaign_roi_bubble"
      · rw [if_pos h19]
        refine ⟨fun _ => ?_, fun hf => ?_⟩
        · exact updateCampaignRoiBubble_idem (resp.data.getD ApiData.empty) s
        · rw [h19] at hf
          exact absurd hf (by decide)
      rw [if_neg h19]
      by_cases h20 : chartId = "channel_touchpoint_split"
      · rw [if_pos h20]
        refine ⟨fun _ => ?_, fun hf => ?_⟩
        · exact pureH_idem _ s (modChartData_idem _ _ (fun c => multiSeriesData_idem (resp.data.getD ApiData.empty) c) s)
        · rw [h20] at hf
          exact absurd hf (by decide)
      rw [if_neg h20]
      by_cases h21 : chartId = "audience_roas"
      · rw [if_pos h21]
        refine ⟨fun _ => ?_, fun hf => ?_⟩
        · exact pureH_idem _ s (modChartData_idem _ _ (fun c => singleSeriesData_idem (resp.data.getD ApiData.empty) c) s)
        · rw [h21] at hf
          exact absurd hf (by decide)
      rw [if_neg h21]
      by_cases h22 : chartId = "channel_lead_quality"
      · rw [if_pos h22]
        refine ⟨fun _ => ?_, fun hf => ?_⟩
        · exact updateChannelLeadQuality_idem (resp.data.getD ApiData.empty) s
        · rw [h22] at hf
          exact absurd hf (by decide)
      rw [if_neg h22]
      by_cases h23 : chartId = "channel_spend_efficiency"
      · rw [if_pos h23]
        refine ⟨fun _ => ?_, fun hf => ?_⟩
        · exact pureH_idem _ s (updateSpendEff_idem (resp.data.getD ApiData.empty) s)
        · rw [h23] at hf
          exact absurd hf (by decide)
      rw [if_neg h23]
      by_cases h24 : chartId = "creative_perf_tiles"
      · rw [if_pos h24]
        refine ⟨fun _ => ?_, fun hf => ?_⟩
        · exact pureH_idem _ s (updateCreativePerfTiles_idem (resp.data.getD ApiData.empty) s)
        · rw [h24] at hf
          exact absurd hf (by decide)
      rw [if_neg h24]
      by_cases h25 : chartId = "channel_snapshot_table"
      · rw [if_pos h25]
        refine ⟨fun _ => ?_, fun hf => ?_⟩
        · exact pureH_idem _ s (updateChannelSnapshotTable_idem (resp.data.getD ApiData.empty) s)
        · rw [h25] at hf
          exact absurd hf (by decide)
      rw [if_neg h25]
      exact ⟨fun _ => rfl, fun hf =>
        absurd hf (by simp [isKpiId, h1, h2, h3, h4])⟩
/-- Claim C9, witness: at a concrete state and payload, the second
dispatch of the CAC-trend response is a strict no-op, and the second
dispatch of the KPI revenue response leaves the cached sparkline payload
unchanged. -/
theorem dispatch_idempotent_witness :
    (renderChartFromAPI (fun _ => false) "perf_cac_trend_by_channel"
        (some cacNewResp)
        ((renderChartFromAPI (fun _ => false) "perf_cac_trend_by_channel"
            (some cacNewResp) emptyState).1)
      = renderChartFromAPI (fun _ => false) "perf_cac_trend_by_channel"
          (some cacNewResp) emptyState) ∧
    kpiChartData ((renderChartFromAPI (fun _ => false) "kpi_revenue"
        (some kpiSparkResp)
        ((renderChartFromAPI (fun _ => false) "kpi_revenue"
            (some kpiSparkResp) kpiSparkState).1)).1) (kpiKeyOf "kpi_revenue")
      = kpiChartData ((renderChartFromAPI (fun _ => false) "kpi_revenue"
          (some kpiSparkResp) kpiSparkState).1) (kpiKeyOf "kpi_revenue") := by
  refine ⟨(dispatch_idempotent (fun _ => false) "perf_cac_trend_by_channel"
      (some cacNewResp) emptyState).1 (by decide),
    ((dispatch_idempotent (fun _ => false) "kpi_revenue" (some kpiSparkResp)
      kpiSparkState).2 (by decide)).2.1⟩
